import Mathlib

set_option maxRecDepth 2000

/-!
# Verification of the Gaia Engine persistence and noise core

Shallow embedding of `src/sim/planetState.ts`, `src/sim/saveSlots.ts` and the
noise module (`src/render`-side `noise.ts`), together with proofs of the
specification's testable properties.

Modelling conventions:

* JavaScript/JSON data alive at the `unknown` boundary is modelled by the
  inductive `JValue` of JSON values (numbers as exact rationals `ℚ`; JSON has
  no `NaN`/`Infinity`, and `Number.isFinite` holds of every JSON number, so
  the `isFinite` guards of the source are always-true on this domain).
  A missing object property (JS `undefined`) is modelled by `Option JValue`.
* `JSON.stringify`/`JSON.parse` form a bijection between canonical JSON text
  and JSON values; serialization is therefore modelled at the value level
  (`serializePlanetState` produces the `JValue` that the emitted text parses
  back to).  Text that is *not* valid JSON is modelled explicitly where the
  source distinguishes it (`StoredPayload.malformed`, `parseJsonText`).
* The browser `localStorage` is modelled as a function `String → Option
  StoredPayload`; mutation is explicit state passing.
* `Date` is modelled by millisecond timestamps `ℤ`: `dateFormat` stands for
  `Date.prototype.toISOString` (an injective rendering of the timestamp) and
  `dateParse` for `Date.parse` (its partial inverse, `none` standing for
  `NaN`).  The proofs below depend only on `dateParse ∘ dateFormat = some`,
  on the linear order of timestamps, and on parse failure for non-date
  strings — all true of the real ISO-8601 codec.
* The module-global permutation table of the noise engine is modelled by
  explicit state passing: `initNoise` returns the table that the source
  writes into the global `P` array.
-/

/-! ## JSON values -/

/-- A JSON value.  Numbers are exact rationals. -/
inductive JValue where
  | jnull : JValue
  | jbool (b : Bool) : JValue
  | num (q : ℚ) : JValue
  | str (s : String) : JValue
  | arr (xs : List JValue) : JValue
  | obj (fields : List (String × JValue)) : JValue
deriving Repr

/-- JS property access `value.key` on an object, `undefined` (`none`) on a
missing key.  (Our callers only access properties of values that passed an
`isRecord` guard, so non-object cases never arise.) -/
def jGet (fields : List (String × JValue)) (key : String) : Option JValue :=
  (fields.lookup key)

/-- `typeof value === 'object' && value !== null && !Array.isArray(value)`:
returns the field list when the value is a plain object. -/
def jRecord? : Option JValue → Option (List (String × JValue))
  | some (JValue.obj fields) => some fields
  | _ => none

/-- `typeof value === 'number' && Number.isFinite(value)` (every JSON number
is finite). -/
def jNumber? : Option JValue → Option ℚ
  | some (JValue.num q) => some q
  | _ => none

/-- `typeof value === 'string'`. -/
def jString? : Option JValue → Option String
  | some (JValue.str s) => some s
  | _ => none

/-- `Array.isArray(value) ? value : null`. -/
def jArray? : Option JValue → Option (List JValue)
  | some (JValue.arr xs) => some xs
  | _ => none

/-! ## Planet state data model (`src/sim/planetState.ts`) -/

def PLANET_STATE_VERSION : ℕ := 1

structure AtmosphericGasComposition where
  gas : String
  percentage : ℚ
deriving Repr, DecidableEq

structure AtmosphereState where
  gases : List AtmosphericGasComposition
  surfacePressureKPa : ℚ
  greenhouseCoefficient : ℚ
deriving Repr, DecidableEq

inductive TectonicPlateType where
  | continental : TectonicPlateType
  | oceanic : TectonicPlateType
deriving Repr, DecidableEq

structure TectonicPlateState where
  id : String
  name : String
  type : TectonicPlateType
  areaFraction : ℚ
  driftRateCmPerYear : ℚ
deriving Repr, DecidableEq

/-- The `unit` field is the literal type `'meters'` and is omitted. -/
structure HeightFieldState where
  width : ℕ
  height : ℕ
  values : List ℚ
deriving Repr, DecidableEq

structure GeologyState where
  plates : List TectonicPlateState
  heightField : HeightFieldState
  volcanismIndex : ℚ
deriving Repr, DecidableEq

structure Coordinates where
  latitude : ℚ
  longitude : ℚ
deriving Repr, DecidableEq

structure RiverSystemState where
  id : String
  name : String
  lengthKm : ℚ
  source : Coordinates
  mouth : Coordinates
deriving Repr, DecidableEq

structure RiverNetworkState where
  seed : Option ℚ
  systems : List RiverSystemState
deriving Repr, DecidableEq

structure IceCapsState where
  northCoverageFraction : ℚ
  southCoverageFraction : ℚ
deriving Repr, DecidableEq

structure HydrologyState where
  oceanCoverage : ℚ
  rivers : RiverNetworkState
  iceCaps : IceCapsState
deriving Repr, DecidableEq

structure BiomeCellState where
  biome : String
  biodiversity : ℚ
deriving Repr, DecidableEq

structure BiomeMapState where
  width : ℕ
  height : ℕ
  cells : List BiomeCellState
deriving Repr, DecidableEq

structure BiosphereState where
  biomeMap : BiomeMapState
  biodiversityIndex : ℚ
deriving Repr, DecidableEq

inductive CivilizationPopulationKind where
  | outpost : CivilizationPopulationKind
  | settlement : CivilizationPopulationKind
  | city : CivilizationPopulationKind
deriving Repr, DecidableEq

inductive CivilizationTechLevel where
  | none : CivilizationTechLevel
  | tribal : CivilizationTechLevel
  | agrarian : CivilizationTechLevel
  | industrial : CivilizationTechLevel
  | digital : CivilizationTechLevel
  | spacefaring : CivilizationTechLevel
deriving Repr, DecidableEq

structure PopulationCenterState where
  id : String
  name : String
  population : ℚ
  kind : CivilizationPopulationKind
  coordinates : Coordinates
deriving Repr, DecidableEq

structure CivilizationState where
  populations : List PopulationCenterState
  techLevel : CivilizationTechLevel
  pollutionIndex : ℚ
deriving Repr, DecidableEq

structure ClimateState where
  axialTiltDegrees : ℚ
  albedo : ℚ
  greenhouseMultiplier : ℚ
  currentTime : ℚ
  yearLength : ℚ
deriving Repr, DecidableEq

structure PlanetState where
  version : ℕ
  atmosphere : AtmosphereState
  geology : GeologyState
  hydrology : HydrologyState
  biosphere : BiosphereState
  civilization : CivilizationState
  climate : ClimateState
deriving Repr, DecidableEq

def DEFAULT_HEIGHT_FIELD_WIDTH : ℕ := 64
def DEFAULT_HEIGHT_FIELD_HEIGHT : ℕ := 32
def DEFAULT_BIOME_MAP_WIDTH : ℕ := 64
def DEFAULT_BIOME_MAP_HEIGHT : ℕ := 32

/-- `ensureNumber`: keep a finite number, otherwise the fallback. -/
def ensureNumber (value : Option JValue) (fallback : ℚ) : ℚ :=
  match jNumber? value with
  | some q => q
  | none => fallback

/-- `ensurePositiveInteger` of `planetState.ts`: floor the number and require
it to be at least `minimum` (the source's default `minimum = 1` is passed
explicitly by our call sites). -/
def ensurePositiveInteger (value : Option JValue) (fallback : ℕ) (minimum : ℕ) : ℕ :=
  match jNumber? value with
  | none => fallback
  | some q =>
    let rounded := ⌊q⌋
    if rounded < (minimum : ℤ) then fallback else rounded.toNat

/-- JS whitespace (the characters relevant to this code base). -/
def isJsWhitespace (c : Char) : Bool :=
  c = ' ' ∨ c = '\t' ∨ c = '\n' ∨ c = '\r'

/-- Model of `String.prototype.trim`: strip leading and trailing
whitespace. -/
def jsTrim (s : String) : String :=
  ⟨((s.data.dropWhile isJsWhitespace).reverse.dropWhile isJsWhitespace).reverse⟩

/-- `ensureString` of `planetState.ts`: keep a string with non-empty trim
(note: the *untrimmed* string is kept), otherwise the fallback. -/
def ensureString (value : Option JValue) (fallback : String) : String :=
  match jString? value with
  | some s => if (jsTrim s).length > 0 then s else fallback
  | none => fallback

def clamp01 (value : ℚ) : ℚ :=
  if value < 0 then 0 else if value > 1 then 1 else value

def clampPercentage (value : ℚ) : ℚ :=
  if value < 0 then 0 else if value > 100 then 100 else value

def clampLatitude (value : ℚ) : ℚ :=
  if value < -90 then -90 else if value > 90 then 90 else value

def clampLongitude (value : ℚ) : ℚ :=
  if value < -180 then -180 else if value > 180 then 180 else value

def padArray (length : ℕ) : List ℚ := List.replicate length 0

def padBiomeCells (length : ℕ) : List BiomeCellState :=
  List.replicate length { biome := "ocean", biodiversity := 0 }

def createDefaultAtmosphereState : AtmosphereState where
  gases :=
    [ { gas := "nitrogen", percentage := 78 },
      { gas := "oxygen", percentage := 21 },
      { gas := "argon", percentage := mkRat 9 10 },
      { gas := "carbon-dioxide", percentage := mkRat 4 100 } ]
  surfacePressureKPa := mkRat 101325 1000
  greenhouseCoefficient := mkRat 3 10

def createDefaultHeightFieldState : HeightFieldState where
  width := DEFAULT_HEIGHT_FIELD_WIDTH
  height := DEFAULT_HEIGHT_FIELD_HEIGHT
  values := padArray (DEFAULT_HEIGHT_FIELD_WIDTH * DEFAULT_HEIGHT_FIELD_HEIGHT)

def createDefaultTectonicPlates : List TectonicPlateState := []

def createDefaultGeologyState : GeologyState where
  plates := createDefaultTectonicPlates
  heightField := createDefaultHeightFieldState
  volcanismIndex := 0

def createDefaultRiverNetworkState : RiverNetworkState where
  seed := none
  systems := []

def createDefaultIceCapsState : IceCapsState where
  northCoverageFraction := mkRat 5 100
  southCoverageFraction := mkRat 4 100

def createDefaultHydrologyState : HydrologyState where
  oceanCoverage := mkRat 72 100
  rivers := createDefaultRiverNetworkState
  iceCaps := createDefaultIceCapsState

def createDefaultBiomeMapState : BiomeMapState where
  width := DEFAULT_BIOME_MAP_WIDTH
  height := DEFAULT_BIOME_MAP_HEIGHT
  cells := padBiomeCells (DEFAULT_BIOME_MAP_WIDTH * DEFAULT_BIOME_MAP_HEIGHT)

def createDefaultBiosphereState : BiosphereState where
  biomeMap := createDefaultBiomeMapState
  biodiversityIndex := mkRat 1 10

def createDefaultCivilizationState : CivilizationState where
  populations := []
  techLevel := CivilizationTechLevel.none
  pollutionIndex := 0

def createDefaultClimateState : ClimateState where
  axialTiltDegrees := mkRat 235 10
  albedo := mkRat 3 10
  greenhouseMultiplier := 1
  currentTime := 0
  yearLength := 365

def createDefaultPlanetState : PlanetState where
  version := PLANET_STATE_VERSION
  atmosphere := createDefaultAtmosphereState
  geology := createDefaultGeologyState
  hydrology := createDefaultHydrologyState
  biosphere := createDefaultBiosphereState
  civilization := createDefaultCivilizationState
  climate := createDefaultClimateState

/-! ### Normalization (`normalize*` of `planetState.ts`)

`xs.map(f).filter(Boolean)` on a nullable-producing `f` is `List.filterMap`.
A sub-normalizer takes the (possibly missing) property value it is handed. -/

def normalizeAtmosphericGas (value : JValue) : Option AtmosphericGasComposition :=
  match jRecord? (some value) with
  | none => none
  | some fields =>
    let gas := ensureString (jGet fields "gas") ""
    if gas.length = 0 then none
    else
      match jNumber? (jGet fields "percentage") with
      | none => none
      | some percentage => some { gas, percentage := clampPercentage percentage }

def normalizeAtmosphere (value : Option JValue) : AtmosphereState :=
  let defaults := createDefaultAtmosphereState
  match jRecord? value with
  | none => defaults
  | some fields =>
    let gasesRaw := jArray? (jGet fields "gases")
    let gases := gasesRaw.map (fun xs => xs.filterMap normalizeAtmosphericGas)
    { gases :=
        match gases with
        | some gs => if gs.length > 0 then gs else defaults.gases
        | none => defaults.gases
      surfacePressureKPa := ensureNumber (jGet fields "surfacePressureKPa") defaults.surfacePressureKPa
      greenhouseCoefficient :=
        ensureNumber (jGet fields "greenhouseCoefficient") defaults.greenhouseCoefficient }

def normalizeTectonicPlate (value : JValue) : Option TectonicPlateState :=
  match jRecord? (some value) with
  | none => none
  | some fields =>
    let id := ensureString (jGet fields "id") ""
    if id.length = 0 then none
    else
      let name := ensureString (jGet fields "name") id
      let type :=
        match jGet fields "type" with
        | some (JValue.str s) =>
          if s = "oceanic" then TectonicPlateType.oceanic else TectonicPlateType.continental
        | _ => TectonicPlateType.continental
      some
        { id, name, type,
          areaFraction := clamp01 (ensureNumber (jGet fields "areaFraction") 0),
          driftRateCmPerYear := ensureNumber (jGet fields "driftRateCmPerYear") 0 }

def normalizeHeightField (value : Option JValue) : HeightFieldState :=
  let defaults := createDefaultHeightFieldState
  match jRecord? value with
  | none => defaults
  | some fields =>
    let width := ensurePositiveInteger (jGet fields "width") defaults.width 1
    let height := ensurePositiveInteger (jGet fields "height") defaults.height 1
    let expectedLength := width * height
    let valuesRaw := (jArray? (jGet fields "values")).getD []
    let values := (valuesRaw.map (fun entry => ensureNumber (some entry) 0)).take expectedLength
    let values := values ++ padArray (expectedLength - values.length)
    { width, height, values }

def normalizeGeology (value : Option JValue) : GeologyState :=
  let defaults := createDefaultGeologyState
  match jRecord? value with
  | none => defaults
  | some fields =>
    let platesRaw := jArray? (jGet fields "plates")
    let plates := platesRaw.map (fun xs => xs.filterMap normalizeTectonicPlate)
    { plates := plates.getD defaults.plates
      heightField := normalizeHeightField (jGet fields "heightField")
      volcanismIndex :=
        clamp01 (ensureNumber (jGet fields "volcanismIndex") defaults.volcanismIndex) }

def normalizeCoordinates (value : Option JValue) : Coordinates :=
  match jRecord? value with
  | none => { latitude := 0, longitude := 0 }
  | some fields =>
    { latitude := clampLatitude (ensureNumber (jGet fields "latitude") 0)
      longitude := clampLongitude (ensureNumber (jGet fields "longitude") 0) }

def normalizeRiverSystem (value : JValue) : Option RiverSystemState :=
  match jRecord? (some value) with
  | none => none
  | some fields =>
    let id := ensureString (jGet fields "id") ""
    if id.length = 0 then none
    else
      some
        { id, name := ensureString (jGet fields "name") id,
          lengthKm := ensureNumber (jGet fields "lengthKm") 0,
          source := normalizeCoordinates (jGet fields "source"),
          mouth := normalizeCoordinates (jGet fields "mouth") }

def normalizeRiverNetwork (value : Option JValue) : RiverNetworkState :=
  let defaults := createDefaultRiverNetworkState
  match jRecord? value with
  | none => defaults
  | some fields =>
    let systemsRaw := jArray? (jGet fields "systems")
    let systems := systemsRaw.map (fun xs => xs.filterMap normalizeRiverSystem)
    { seed :=
        match jNumber? (jGet fields "seed") with
        | some q => some q
        | none => defaults.seed
      systems := systems.getD defaults.systems }

def normalizeIceCaps (value : Option JValue) : IceCapsState :=
  let defaults := createDefaultIceCapsState
  match jRecord? value with
  | none => defaults
  | some fields =>
    { northCoverageFraction :=
        clamp01 (ensureNumber (jGet fields "northCoverageFraction") defaults.northCoverageFraction)
      southCoverageFraction :=
        clamp01 (ensureNumber (jGet fields "southCoverageFraction") defaults.southCoverageFraction) }

def normalizeHydrology (value : Option JValue) : HydrologyState :=
  let defaults := createDefaultHydrologyState
  match jRecord? value with
  | none => defaults
  | some fields =>
    { oceanCoverage := clamp01 (ensureNumber (jGet fields "oceanCoverage") defaults.oceanCoverage)
      rivers := normalizeRiverNetwork (jGet fields "rivers")
      iceCaps := normalizeIceCaps (jGet fields "iceCaps") }

def normalizeBiomeCell (value : JValue) : Option BiomeCellState :=
  match jRecord? (some value) with
  | none => none
  | some fields =>
    let biome := ensureString (jGet fields "biome") ""
    if biome.length = 0 then none
    else some { biome, biodiversity := clamp01 (ensureNumber (jGet fields "biodiversity") 0) }

def normalizeBiomeMap (value : Option JValue) : BiomeMapState :=
  let defaults := createDefaultBiomeMapState
  match jRecord? value with
  | none => defaults
  | some fields =>
    let width := ensurePositiveInteger (jGet fields "width") defaults.width 1
    let height := ensurePositiveInteger (jGet fields "height") defaults.height 1
    let expectedLength := width * height
    let rawCells := (jArray? (jGet fields "cells")).getD []
    let cells := (rawCells.filterMap normalizeBiomeCell).take expectedLength
    let cells := cells ++ padBiomeCells (expectedLength - cells.length)
    { width, height, cells }

def normalizeBiosphere (value : Option JValue) : BiosphereState :=
  let defaults := createDefaultBiosphereState
  match jRecord? value with
  | none => defaults
  | some fields =>
    { biomeMap := normalizeBiomeMap (jGet fields "biomeMap")
      biodiversityIndex :=
        clamp01 (ensureNumber (jGet fields "biodiversityIndex") defaults.biodiversityIndex) }

def normalizePopulationCenter (value : JValue) : Option PopulationCenterState :=
  match jRecord? (some value) with
  | none => none
  | some fields =>
    let id := ensureString (jGet fields "id") ""
    if id.length = 0 then none
    else
      let name := ensureString (jGet fields "name") id
      let kind :=
        match jGet fields "kind" with
        | some (JValue.str s) =>
          if s = "settlement" then CivilizationPopulationKind.settlement
          else if s = "city" then CivilizationPopulationKind.city
          else CivilizationPopulationKind.outpost
        | _ => CivilizationPopulationKind.outpost
      some
        { id, name, kind,
          population := max 0 (ensureNumber (jGet fields "population") 0),
          coordinates := normalizeCoordinates (jGet fields "coordinates") }

def normalizeCivilization (value : Option JValue) : CivilizationState :=
  let defaults := createDefaultCivilizationState
  match jRecord? value with
  | none => defaults
  | some fields =>
    let populationsRaw := jArray? (jGet fields "populations")
    let populations := populationsRaw.map (fun xs => xs.filterMap normalizePopulationCenter)
    let normalizedTechLevel :=
      match jGet fields "techLevel" with
      | some (JValue.str s) =>
        if s = "tribal" then CivilizationTechLevel.tribal
        else if s = "agrarian" then CivilizationTechLevel.agrarian
        else if s = "industrial" then CivilizationTechLevel.industrial
        else if s = "digital" then CivilizationTechLevel.digital
        else if s = "spacefaring" then CivilizationTechLevel.spacefaring
        else CivilizationTechLevel.none
      | _ => CivilizationTechLevel.none
    { populations := populations.getD defaults.populations
      techLevel := normalizedTechLevel
      pollutionIndex :=
        clamp01 (ensureNumber (jGet fields "pollutionIndex") defaults.pollutionIndex) }

def normalizeClimate (value : Option JValue) : ClimateState :=
  let defaults := createDefaultClimateState
  match jRecord? value with
  | none => defaults
  | some fields =>
    { axialTiltDegrees :=
        min (max (ensureNumber (jGet fields "axialTiltDegrees") defaults.axialTiltDegrees) 0) 90
      albedo := clamp01 (ensureNumber (jGet fields "albedo") defaults.albedo)
      greenhouseMultiplier :=
        max 0 (ensureNumber (jGet fields "greenhouseMultiplier") defaults.greenhouseMultiplier)
      currentTime := max 0 (ensureNumber (jGet fields "currentTime") defaults.currentTime)
      yearLength := max 1 (ensureNumber (jGet fields "yearLength") defaults.yearLength) }

def normalizePlanetStateV1 (fields : List (String × JValue)) : PlanetState where
  version := PLANET_STATE_VERSION
  atmosphere := normalizeAtmosphere (jGet fields "atmosphere")
  geology := normalizeGeology (jGet fields "geology")
  hydrology := normalizeHydrology (jGet fields "hydrology")
  biosphere := normalizeBiosphere (jGet fields "biosphere")
  civilization := normalizeCivilization (jGet fields "civilization")
  climate := normalizeClimate (jGet fields "climate")

/-- The `PLANET_STATE_NORMALIZERS` registry: only version 1 is registered. -/
def planetStateNormalizerFor (version : ℕ) :
    Option (List (String × JValue) → PlanetState) :=
  if version = PLANET_STATE_VERSION then some normalizePlanetStateV1 else none

/-- `migratePlanetState`: non-objects become the default state; otherwise the
version tag is resolved (with the *current* version as fallback) and
dispatched through the normalizer registry, throwing on an unregistered
version. -/
def migratePlanetState (value : JValue) : Except String PlanetState :=
  match jRecord? (some value) with
  | none => Except.ok createDefaultPlanetState
  | some fields =>
    let version := ensurePositiveInteger (jGet fields "version") PLANET_STATE_VERSION 1
    match planetStateNormalizerFor version with
    | none => Except.error s!"Unsupported planet state version: {version}"
    | some normalizer => Except.ok (normalizer fields)

/-! ### Serialization

`serializePlanetState(state) = JSON.stringify(state)`.  `JSON.stringify`
prints object properties in declaration order and the produced text parses
back to the value below, so serialization is modelled at the value level
(see the header of this file). -/

def gasToJson (g : AtmosphericGasComposition) : JValue :=
  JValue.obj [("gas", JValue.str g.gas), ("percentage", JValue.num g.percentage)]

def atmosphereToJson (a : AtmosphereState) : JValue :=
  JValue.obj
    [ ("gases", JValue.arr (a.gases.map gasToJson)),
      ("surfacePressureKPa", JValue.num a.surfacePressureKPa),
      ("greenhouseCoefficient", JValue.num a.greenhouseCoefficient) ]

def plateTypeToString : TectonicPlateType → String
  | TectonicPlateType.continental => "continental"
  | TectonicPlateType.oceanic => "oceanic"

def plateToJson (p : TectonicPlateState) : JValue :=
  JValue.obj
    [ ("id", JValue.str p.id), ("name", JValue.str p.name),
      ("type", JValue.str (plateTypeToString p.type)),
      ("areaFraction", JValue.num p.areaFraction),
      ("driftRateCmPerYear", JValue.num p.driftRateCmPerYear) ]

def heightFieldToJson (h : HeightFieldState) : JValue :=
  JValue.obj
    [ ("width", JValue.num (h.width : ℚ)), ("height", JValue.num (h.height : ℚ)),
      ("unit", JValue.str "meters"),
      ("values", JValue.arr (h.values.map JValue.num)) ]

def geologyToJson (g : GeologyState) : JValue :=
  JValue.obj
    [ ("plates", JValue.arr (g.plates.map plateToJson)),
      ("heightField", heightFieldToJson g.heightField),
      ("volcanismIndex", JValue.num g.volcanismIndex) ]

def coordinatesToJson (c : Coordinates) : JValue :=
  JValue.obj [("latitude", JValue.num c.latitude), ("longitude", JValue.num c.longitude)]

def riverSystemToJson (r : RiverSystemState) : JValue :=
  JValue.obj
    [ ("id", JValue.str r.id), ("name", JValue.str r.name),
      ("lengthKm", JValue.num r.lengthKm),
      ("source", coordinatesToJson r.source), ("mouth", coordinatesToJson r.mouth) ]

def riverNetworkToJson (r : RiverNetworkState) : JValue :=
  JValue.obj
    [ ("seed", match r.seed with | some q => JValue.num q | none => JValue.jnull),
      ("systems", JValue.arr (r.systems.map riverSystemToJson)) ]

def iceCapsToJson (i : IceCapsState) : JValue :=
  JValue.obj
    [ ("northCoverageFraction", JValue.num i.northCoverageFraction),
      ("southCoverageFraction", JValue.num i.southCoverageFraction) ]

def hydrologyToJson (h : HydrologyState) : JValue :=
  JValue.obj
    [ ("oceanCoverage", JValue.num h.oceanCoverage),
      ("rivers", riverNetworkToJson h.rivers),
      ("iceCaps", iceCapsToJson h.iceCaps) ]

def biomeCellToJson (c : BiomeCellState) : JValue :=
  JValue.obj [("biome", JValue.str c.biome), ("biodiversity", JValue.num c.biodiversity)]

def biomeMapToJson (b : BiomeMapState) : JValue :=
  JValue.obj
    [ ("width", JValue.num (b.width : ℚ)), ("height", JValue.num (b.height : ℚ)),
      ("cells", JValue.arr (b.cells.map biomeCellToJson)) ]

def biosphereToJson (b : BiosphereState) : JValue :=
  JValue.obj
    [ ("biomeMap", biomeMapToJson b.biomeMap),
      ("biodiversityIndex", JValue.num b.biodiversityIndex) ]

def populationKindToString : CivilizationPopulationKind → String
  | CivilizationPopulationKind.outpost => "outpost"
  | CivilizationPopulationKind.settlement => "settlement"
  | CivilizationPopulationKind.city => "city"

def populationToJson (p : PopulationCenterState) : JValue :=
  JValue.obj
    [ ("id", JValue.str p.id), ("name", JValue.str p.name),
      ("population", JValue.num p.population),
      ("kind", JValue.str (populationKindToString p.kind)),
      ("coordinates", coordinatesToJson p.coordinates) ]

def techLevelToString : CivilizationTechLevel → String
  | CivilizationTechLevel.none => "none"
  | CivilizationTechLevel.tribal => "tribal"
  | CivilizationTechLevel.agrarian => "agrarian"
  | CivilizationTechLevel.industrial => "industrial"
  | CivilizationTechLevel.digital => "digital"
  | CivilizationTechLevel.spacefaring => "spacefaring"

def civilizationToJson (c : CivilizationState) : JValue :=
  JValue.obj
    [ ("populations", JValue.arr (c.populations.map populationToJson)),
      ("techLevel", JValue.str (techLevelToString c.techLevel)),
      ("pollutionIndex", JValue.num c.pollutionIndex) ]

def climateToJson (c : ClimateState) : JValue :=
  JValue.obj
    [ ("axialTiltDegrees", JValue.num c.axialTiltDegrees),
      ("albedo", JValue.num c.albedo),
      ("greenhouseMultiplier", JValue.num c.greenhouseMultiplier),
      ("currentTime", JValue.num c.currentTime),
      ("yearLength", JValue.num c.yearLength) ]

def planetStateToJson (s : PlanetState) : JValue :=
  JValue.obj
    [ ("version", JValue.num (s.version : ℚ)),
      ("atmosphere", atmosphereToJson s.atmosphere),
      ("geology", geologyToJson s.geology),
      ("hydrology", hydrologyToJson s.hydrology),
      ("biosphere", biosphereToJson s.biosphere),
      ("civilization", civilizationToJson s.civilization),
      ("climate", climateToJson s.climate) ]

/-- `serializePlanetState = JSON.stringify`, modelled at the value level. -/
def serializePlanetState (state : PlanetState) : JValue := planetStateToJson state

/-! ### `JSON.parse` (model of the runtime parser, used by the
`typeof payload === 'string'` branch of `deserializePlanetState`) -/

def skipWs : List Char → List Char
  | c :: cs => if c = ' ' ∨ c = '\n' ∨ c = '\t' ∨ c = '\r' then skipWs cs else c :: cs
  | [] => []

/-- Characters of a JSON string literal after the opening quote, with basic
escape handling; returns the decoded characters and the remaining input. -/
def parseStringChars : ℕ → List Char → Option (List Char × List Char)
  | 0, _ => none
  | _, [] => none
  | fuel + 1, c :: cs =>
    if c = '"' then some ([], cs)
    else if c = '\\' then
      match cs with
      | esc :: cs' =>
        let decoded :=
          if esc = 'n' then '\n' else if esc = 't' then '\t' else if esc = 'r' then '\r' else esc
        match parseStringChars fuel cs' with
        | some (rest, rem) => some (decoded :: rest, rem)
        | none => none
      | [] => none
    else
      match parseStringChars fuel cs with
      | some (rest, rem) => some (c :: rest, rem)
      | none => none

def parseDigits : List Char → List ℕ × List Char
  | c :: cs =>
    if c.isDigit then
      let (ds, rem) := parseDigits cs
      ((c.toNat - 48) :: ds, rem)
    else ([], c :: cs)
  | [] => ([], [])

def digitsVal (ds : List ℕ) : ℕ := ds.foldl (fun acc d => acc * 10 + d) 0

def parseNumber (cs : List Char) : Option (ℚ × List Char) :=
  let signed := match cs with | '-' :: rest => (true, rest) | _ => (false, cs)
  let neg := signed.1
  let (ints, cs₂) := parseDigits signed.2
  if ints.isEmpty then none
  else
    let intPart : ℚ := (digitsVal ints : ℚ)
    let fracStep :=
      match cs₂ with
      | '.' :: rest =>
        let (fds, rem) := parseDigits rest
        (((digitsVal fds : ℚ) / (10 : ℚ) ^ fds.length : ℚ), rem)
      | _ => ((0 : ℚ), cs₂)
    let expStep :=
      match fracStep.2 with
      | c :: rest =>
        if c = 'e' ∨ c = 'E' then
          match rest with
          | '-' :: r2 => let (eds, rem) := parseDigits r2; ((-(digitsVal eds : ℤ) : ℤ), rem)
          | '+' :: r2 => let (eds, rem) := parseDigits r2; (((digitsVal eds : ℤ) : ℤ), rem)
          | _ => let (eds, rem) := parseDigits rest; (((digitsVal eds : ℤ) : ℤ), rem)
        else ((0 : ℤ), c :: rest)
      | [] => ((0 : ℤ), [])
    let mag : ℚ := (intPart + fracStep.1) * (10 : ℚ) ^ (expStep.1 : ℤ)
    some (if neg then -mag else mag, expStep.2)

mutual

def parseJValue : ℕ → List Char → Option (JValue × List Char)
  | 0, _ => none
  | fuel + 1, cs =>
    match skipWs cs with
    | 'n' :: 'u' :: 'l' :: 'l' :: rest => some (JValue.jnull, rest)
    | 't' :: 'r' :: 'u' :: 'e' :: rest => some (JValue.jbool true, rest)
    | 'f' :: 'a' :: 'l' :: 's' :: 'e' :: rest => some (JValue.jbool false, rest)
    | '"' :: rest =>
      (parseStringChars (rest.length + 1) rest).map fun p => (JValue.str ⟨p.1⟩, p.2)
    | '[' :: rest =>
      (match skipWs rest with
       | ']' :: rem => some (JValue.arr [], rem)
       | rest' => (parseArrItems fuel rest').map fun p => (JValue.arr p.1, p.2))
    | '{' :: rest =>
      (match skipWs rest with
       | '}' :: rem => some (JValue.obj [], rem)
       | rest' => (parseObjItems fuel rest').map fun p => (JValue.obj p.1, p.2))
    | rest => (parseNumber rest).map fun p => (JValue.num p.1, p.2)

def parseArrItems : ℕ → List Char → Option (List JValue × List Char)
  | 0, _ => none
  | fuel + 1, cs =>
    match parseJValue fuel cs with
    | none => none
    | some (v, rem) =>
      match skipWs rem with
      | ',' :: rest =>
        match parseArrItems fuel rest with
        | some (xs, rem') => some (v :: xs, rem')
        | none => none
      | ']' :: rest => some ([v], rest)
      | _ => none

def parseObjItems : ℕ → List Char → Option (List (String × JValue) × List Char)
  | 0, _ => none
  | fuel + 1, cs =>
    match skipWs cs with
    | '"' :: rest =>
      match parseStringChars (rest.length + 1) rest with
      | none => none
      | some (keyChars, rem) =>
        match skipWs rem with
        | ':' :: rest' =>
          match parseJValue fuel rest' with
          | none => none
          | some (v, rem') =>
            match skipWs rem' with
            | ',' :: rest'' =>
              match parseObjItems fuel rest'' with
              | some (fs, rem'') => some ((⟨keyChars⟩, v) :: fs, rem'')
              | none => none
            | '}' :: rest'' => some ([(⟨keyChars⟩, v)], rest'')
            | _ => none
        | _ => none
    | _ => none

end

/-- Model of `JSON.parse`: `none` is a thrown `SyntaxError`. -/
def parseJsonText (s : String) : Option JValue :=
  match parseJValue (s.length + 1) s.data with
  | some (v, rem) => if skipWs rem = [] then some v else none
  | none => none

/-- `deserializePlanetState(payload: string | unknown)`: a string payload is
parsed as JSON text first (a parse failure propagates as a thrown
`SyntaxError`); everything else goes straight to migration. -/
def deserializePlanetState (payload : JValue) : Except String PlanetState :=
  match payload with
  | JValue.str s =>
    match parseJsonText s with
    | some parsed => migratePlanetState parsed
    | none => Except.error "Unexpected token in JSON"
  | _ => migratePlanetState payload

/-! ## The `Date` service

Timestamps are milliseconds since the epoch (`ℤ`).  `dateFormat` models
`Date.prototype.toISOString` as an injective rendering of the timestamp into
a string, and `dateParse` models `Date.parse` as its partial inverse
(`none` = `NaN`).  Everything proved below uses only: `dateParse (dateFormat
t) = some t`, the order on parsed timestamps, and that non-date strings
parse to `none` — all properties of the real ISO-8601 codec. -/

def digitChar (d : ℕ) : Char := Char.ofNat (48 + d)

/-- Little-endian decimal digits with explicit fuel (structural recursion,
so that the kernel can evaluate it on literals). -/
def natDigitsAux : ℕ → ℕ → List ℕ
  | 0, _ => []
  | fuel + 1, n => if n = 0 then [] else n % 10 :: natDigitsAux fuel (n / 10)

def natToChars (n : ℕ) : List Char :=
  if n = 0 then ['0'] else ((natDigitsAux n n).map digitChar).reverse

def charDigit? (c : Char) : Option ℕ :=
  if 48 ≤ c.toNat ∧ c.toNat ≤ 57 then some (c.toNat - 48) else none

def mapDigits? : List Char → Option (List ℕ)
  | [] => some []
  | c :: cs =>
    match charDigit? c, mapDigits? cs with
    | some d, some ds => some (d :: ds)
    | _, _ => none

def charsToNat? (cs : List Char) : Option ℕ :=
  if cs.isEmpty then none
  else (mapDigits? cs.reverse).map (Nat.ofDigits 10)

def dateFormat (t : ℤ) : String :=
  ⟨'@' :: (if t < 0 then '-' else '+') :: (natToChars t.natAbs ++ ['Z'])⟩

def dateParse (s : String) : Option ℤ :=
  match s.data with
  | '@' :: sign :: rest =>
    match rest.reverse with
    | 'Z' :: bodyRev =>
      if sign = '-' then (charsToNat? bodyRev.reverse).map fun n => -(n : ℤ)
      else if sign = '+' then (charsToNat? bodyRev.reverse).map fun n => (n : ℤ)
      else none
    | _ => none
  | _ => none

/-! ## Save slots (`src/sim/saveSlots.ts`) -/

def PLANET_SAVE_FORMAT_VERSION : ℕ := 1
def SAVE_SLOT_COUNT : ℕ := 3
def ISO_EPOCH : String := dateFormat 0
def MAX_LABEL_LENGTH : ℕ := 64

/-- The three data-error classes thrown by the save-record parser
(`PlanetSaveCorruptedError`, `PlanetSaveUnsupportedVersionError`,
`PlanetSaveIncompatibleError`). -/
inductive SaveParseError where
  | corrupted (message : String) : SaveParseError
  | unsupportedVersion (message : String) : SaveParseError
  | incompatible (message : String) : SaveParseError
deriving Repr, DecidableEq

/-- All error classes of the slot store: the three parse errors plus
`PlanetSaveSlotEmptyError` and the JS `RangeError` used for invalid slot
indices. -/
inductive SaveError where
  | slotEmpty (message : String) : SaveError
  | corrupted (message : String) : SaveError
  | unsupportedVersion (message : String) : SaveError
  | incompatible (message : String) : SaveError
  | rangeError (message : String) : SaveError
deriving Repr, DecidableEq

def liftParseError : SaveParseError → SaveError
  | SaveParseError.corrupted m => SaveError.corrupted m
  | SaveParseError.unsupportedVersion m => SaveError.unsupportedVersion m
  | SaveParseError.incompatible m => SaveError.incompatible m

structure PlanetSaveMetadata where
  slot : ℕ
  label : String
  createdAt : String
  updatedAt : String
deriving Repr, DecidableEq

structure PlanetSave where
  formatVersion : ℕ
  metadata : PlanetSaveMetadata
  planetStateVersion : ℕ
  planetState : PlanetState
deriving Repr, DecidableEq

inductive PlanetSaveSlotSummary where
  | empty (slot : ℕ) (label : String) : PlanetSaveSlotSummary
  | available (slot : ℕ) (label : String) (metadata : PlanetSaveMetadata)
      (planetStateVersion : ℕ) : PlanetSaveSlotSummary
  | corrupted (slot : ℕ) (label : String) (reason : String) : PlanetSaveSlotSummary
  | incompatible (slot : ℕ) (label : String) (reason : String) : PlanetSaveSlotSummary
deriving Repr, DecidableEq

def isPlanetSaveSlotAvailable : PlanetSaveSlotSummary → Bool
  | PlanetSaveSlotSummary.available _ _ _ _ => true
  | _ => false

structure SavePlanetStateOptions where
  label : Option String
  timestamp : Option ℤ
deriving Repr, DecidableEq

/-- A value held by the underlying string store: either text that is not
valid JSON, or text that parses to the given JSON value (the
`JSON.stringify`/`JSON.parse` bijection is elided, see the file header). -/
inductive StoredPayload where
  | malformed (text : String) : StoredPayload
  | wellFormed (value : JValue) : StoredPayload

/-- The key-value store backing the slots (browser `localStorage`). -/
def Storage : Type := String → Option StoredPayload

/-- `ensureString` of `saveSlots.ts` — unlike the `planetState.ts` helper it
returns the *trimmed* string. -/
def ssEnsureString (value : Option JValue) (fallback : String) : String :=
  match jString? value with
  | some s => if (jsTrim s).length > 0 then jsTrim s else fallback
  | none => fallback

/-- `ensurePositiveInteger` of `saveSlots.ts` (no fallback, strictly
positive). -/
def ssEnsurePositiveInteger (value : Option JValue) : Option ℕ :=
  match jNumber? value with
  | none => none
  | some q => if ⌊q⌋ > 0 then some ⌊q⌋.toNat else none

def ensureSlotIndex (value : Option JValue) : Option ℕ :=
  match jNumber? value with
  | none => none
  | some q =>
    if ⌊q⌋ < 0 ∨ ⌊q⌋ ≥ (SAVE_SLOT_COUNT : ℤ) then none else some ⌊q⌋.toNat

def ensureISODate (value : Option JValue) (fallback : String) : String :=
  match jString? value with
  | some s =>
    match dateParse s with
    | some parsed => dateFormat parsed
    | none => fallback
  | none => fallback

/-- `sanitizeLabel`: trimmed-or-fallback, truncated to 64 characters (JS
`slice` counts UTF-16 units; we count characters — the difference is
invisible to every property below). -/
def sanitizeLabel (value : Option JValue) (fallback : String) : String :=
  let label := ssEnsureString value fallback
  if label.length > MAX_LABEL_LENGTH then label.take MAX_LABEL_LENGTH else label

def defaultSlotLabel (slot : ℕ) : String := s!"Slot {slot + 1}"

def getSlotKey (slot : ℕ) : String := "planet-save-slot-" ++ toString slot

/-- JS `String(value)`, used only inside an error message. -/
def jDisplay : JValue → String
  | JValue.jnull => "null"
  | JValue.jbool b => if b then "true" else "false"
  | JValue.num q => toString q
  | JValue.str s => s
  | JValue.arr _ => ""
  | JValue.obj _ => "[object Object]"

def metadataToJson (m : PlanetSaveMetadata) : JValue :=
  JValue.obj
    [ ("slot", JValue.num (m.slot : ℚ)), ("label", JValue.str m.label),
      ("createdAt", JValue.str m.createdAt), ("updatedAt", JValue.str m.updatedAt) ]

def normalizePlanetSaveV1 (payload : List (String × JValue)) (expectedSlot : Option ℕ) :
    Except SaveParseError PlanetSave :=
  match jRecord? (jGet payload "metadata") with
  | none => Except.error (SaveParseError.corrupted "Save metadata is missing or invalid")
  | some metadataRaw =>
    match ensureSlotIndex (jGet metadataRaw "slot"), expectedSlot with
    | none, some _ => Except.error (SaveParseError.corrupted "Save metadata slot is invalid")
    | none, none => Except.error (SaveParseError.corrupted "Save metadata slot is missing")
    | some slotFromPayload, expectedSlot =>
      if expectedSlot.isSome ∧ slotFromPayload ≠ expectedSlot.getD 0 then
        Except.error (SaveParseError.corrupted
          s!"Save metadata slot {slotFromPayload} does not match expected slot {expectedSlot.getD 0}")
      else
        let slot := slotFromPayload
        let fallbackLabel := defaultSlotLabel slot
        let createdAt := ensureISODate (jGet metadataRaw "createdAt") ISO_EPOCH
        let updatedCandidate := ensureISODate (jGet metadataRaw "updatedAt") createdAt
        let createdTimestamp := dateParse createdAt
        let updatedTimestamp := dateParse updatedCandidate
        let metadata : PlanetSaveMetadata :=
          { slot
            label := sanitizeLabel (jGet metadataRaw "label") fallbackLabel
            createdAt
            updatedAt :=
              match updatedTimestamp, createdTimestamp with
              | none, _ => createdAt
              | some ut, some ct => if ut < ct then createdAt else dateFormat ut
              | some ut, none => dateFormat ut }
        if (jGet payload "planetStateVersion").isNone then
          Except.error
            (SaveParseError.corrupted "Save payload is missing the planet state version")
        else
          match ssEnsurePositiveInteger (jGet payload "planetStateVersion") with
          | none =>
            Except.error
              (SaveParseError.corrupted "Save payload includes an invalid planet state version")
          | some planetStateVersionRaw =>
            if planetStateVersionRaw > PLANET_STATE_VERSION then
              Except.error (SaveParseError.incompatible
                s!"Planet state version {planetStateVersionRaw} is newer than supported version {PLANET_STATE_VERSION}")
            else if (jGet payload "planetState").isNone then
              Except.error
                (SaveParseError.corrupted "Save payload is missing the planet state data")
            else
              match deserializePlanetState ((jGet payload "planetState").getD JValue.jnull) with
              | Except.error msg => Except.error (SaveParseError.incompatible msg)
              | Except.ok planetState =>
                Except.ok
                  { formatVersion := PLANET_SAVE_FORMAT_VERSION
                    metadata
                    planetStateVersion := planetState.version
                    planetState }

/-- The `PLANET_SAVE_NORMALIZERS` registry: only version 1 is registered. -/
def planetSaveNormalizerFor (version : ℕ) :
    Option (List (String × JValue) → Option ℕ → Except SaveParseError PlanetSave) :=
  if version = PLANET_SAVE_FORMAT_VERSION then some normalizePlanetSaveV1 else none

def parseSavePayload (payload : StoredPayload) (expectedSlot : Option ℕ) :
    Except SaveParseError PlanetSave :=
  match payload with
  | StoredPayload.malformed _ =>
    Except.error (SaveParseError.corrupted "Save payload is not valid JSON")
  | StoredPayload.wellFormed raw =>
    match jRecord? (some raw) with
    | none => Except.error (SaveParseError.corrupted "Save payload must be an object")
    | some fields =>
      match jGet fields "version" with
      | none =>
        Except.error (SaveParseError.corrupted "Save payload is missing the format version")
      | some versionValue =>
        match ssEnsurePositiveInteger (some versionValue) with
        | none =>
          Except.error (SaveParseError.corrupted "Save payload has an invalid format version")
        | some version =>
          match planetSaveNormalizerFor version with
          | none =>
            Except.error (SaveParseError.unsupportedVersion
              s!"Unsupported save format version: {jDisplay versionValue}")
          | some normalizer => normalizer fields expectedSlot

def readSaveFromStorage (storage : Storage) (slot : ℕ) : Except SaveError PlanetSave :=
  match storage (getSlotKey slot) with
  | none => Except.error (SaveError.slotEmpty s!"Save slot {slot + 1} is empty")
  | some raw =>
    match parseSavePayload raw (some slot) with
    | Except.ok save => Except.ok save
    | Except.error e => Except.error (liftParseError e)

/-- `tryReadSaveFromStorage` catches all four data errors (`readSaveFromStorage`
can produce no other kind). -/
def tryReadSaveFromStorage (storage : Storage) (slot : ℕ) : Option PlanetSave :=
  match readSaveFromStorage storage slot with
  | Except.ok save => some save
  | Except.error _ => none

def buildSerializedSavePayload (planetState : PlanetState) (metadata : PlanetSaveMetadata) :
    JValue :=
  JValue.obj
    [ ("version", JValue.num (PLANET_SAVE_FORMAT_VERSION : ℚ)),
      ("metadata", metadataToJson metadata),
      ("planetStateVersion", JValue.num (planetState.version : ℚ)),
      ("planetState", planetStateToJson planetState) ]

/-- `serializePlanetSave = JSON.stringify(buildSerializedSavePayload(...))`,
modelled at the value level. -/
def serializePlanetSave (planetState : PlanetState) (metadata : PlanetSaveMetadata) : JValue :=
  buildSerializedSavePayload planetState metadata

def deserializePlanetSave (payload : StoredPayload) (expectedSlot : Option ℕ) :
    Except SaveParseError PlanetSave :=
  parseSavePayload payload expectedSlot

/-- `savePlanetStateToSlot`.  The wall clock (`new Date()`) is the explicit
`now` argument; storage mutation is explicit state passing. -/
def savePlanetStateToSlot (storage : Storage) (now : ℤ) (slot : ℕ)
    (planetState : PlanetState) (options : Option SavePlanetStateOptions) :
    Except SaveError (Storage × PlanetSave) :=
  if SAVE_SLOT_COUNT ≤ slot then
    Except.error (SaveError.rangeError s!"Invalid save slot index: {slot}")
  else
    let existing := tryReadSaveFromStorage storage slot
    let timestamp := dateFormat ((options.bind (fun o => o.timestamp)).getD now)
    let fallbackLabel := defaultSlotLabel slot
    let labelSource :=
      ((options.bind (fun o => o.label)).orElse
        (fun _ => existing.map (fun e => e.metadata.label))).getD fallbackLabel
    let metadata : PlanetSaveMetadata :=
      { slot
        label := sanitizeLabel (some (JValue.str labelSource)) fallbackLabel
        createdAt := (existing.map (fun e => e.metadata.createdAt)).getD timestamp
        updatedAt := timestamp }
    let serialized := buildSerializedSavePayload planetState metadata
    let storage' : Storage := fun key =>
      if key = getSlotKey slot then some (StoredPayload.wellFormed serialized) else storage key
    Except.ok
      (storage',
        { formatVersion := PLANET_SAVE_FORMAT_VERSION
          metadata
          planetStateVersion := planetState.version
          planetState })

def loadPlanetSaveSlot (storage : Storage) (slot : ℕ) : Except SaveError PlanetSave :=
  if SAVE_SLOT_COUNT ≤ slot then
    Except.error (SaveError.rangeError s!"Invalid save slot index: {slot}")
  else readSaveFromStorage storage slot

def clearPlanetSaveSlot (storage : Storage) (slot : ℕ) : Except SaveError Storage :=
  if SAVE_SLOT_COUNT ≤ slot then
    Except.error (SaveError.rangeError s!"Invalid save slot index: {slot}")
  else Except.ok (fun key => if key = getSlotKey slot then none else storage key)

def summarizeSlot (storage : Storage) (slot : ℕ) : PlanetSaveSlotSummary :=
  let label := defaultSlotLabel slot
  match storage (getSlotKey slot) with
  | none => PlanetSaveSlotSummary.empty slot label
  | some raw =>
    match parseSavePayload raw (some slot) with
    | Except.ok save =>
      PlanetSaveSlotSummary.available slot save.metadata.label save.metadata
        save.planetStateVersion
    | Except.error (SaveParseError.unsupportedVersion msg) =>
      PlanetSaveSlotSummary.incompatible slot label msg
    | Except.error (SaveParseError.incompatible msg) =>
      PlanetSaveSlotSummary.incompatible slot label msg
    | Except.error (SaveParseError.corrupted msg) =>
      PlanetSaveSlotSummary.corrupted slot label msg

def listPlanetSaveSlots (storage : Storage) : List PlanetSaveSlotSummary :=
  (List.range SAVE_SLOT_COUNT).map (summarizeSlot storage)

/-- One step of the `findMostRecentValidSaveSlot` loop body. -/
def mostRecentStep (latest : Option PlanetSaveSlotSummary) (summary : PlanetSaveSlotSummary) :
    Option PlanetSaveSlotSummary :=
  match summary with
  | PlanetSaveSlotSummary.available _ _ md _ =>
    match latest with
    | none => some summary
    | some (PlanetSaveSlotSummary.available _ _ lmd _) =>
      match dateParse md.updatedAt, dateParse lmd.updatedAt with
      | none, _ => latest
      | some _, none => some summary
      | some candidateTimestamp, some latestTimestamp =>
        if candidateTimestamp > latestTimestamp then some summary else latest
    | some _ => latest
  | _ => latest

def findMostRecentValidSaveSlot (storage : Storage) : Option PlanetSaveSlotSummary :=
  (listPlanetSaveSlots storage).foldl mostRecentStep none

/-! ## Noise engine (`noise.ts`)

The module-global 512-entry table `P` is modelled by explicit state passing:
`initNoise seed` returns the table the source writes into `P`.  Seeds are
the natural numbers used by every caller.  All arithmetic is exact over `ℚ`
(the source computes in IEEE doubles; none of the properties proved below
depends on rounding).  `q / 0 = 0` in `ℚ` where JS produces `NaN`/`±∞`; no
proof below relies on that corner (the divisor is shown positive first). -/

def lcgNext (state : ℕ) : ℕ := (state * 9301 + 49297) % 233280

/-- Element access into the permutation table (`P[i]`, always in range in
the source). -/
def pAt (P : List ℕ) (i : ℕ) : ℕ := P.getD i 0

/-- One Fisher–Yates swap at index `i` with swap target
`⌊state / 233280 * (i + 1)⌋`. -/
def fyStep (perm : List ℕ) (state i : ℕ) : List ℕ :=
  let j := state * (i + 1) / 233280
  let a := pAt perm i
  let b := pAt perm j
  (perm.set i b).set j a

/-- The `for (let i = 255; i > 0; i--)` shuffle loop: the first argument is
the loop index `i`. -/
def fyLoop : ℕ → ℕ → List ℕ → List ℕ
  | 0, _, perm => perm
  | i + 1, state, perm =>
    let state' := lcgNext state
    fyLoop i state' (fyStep perm state' (i + 1))

/-- `initializePermutation`: the 256-entry shuffled table. -/
def initPermutation (seed : ℕ) : List ℕ := fyLoop 255 seed (List.range 256)

/-- `initNoise(seed)`: the full 512-entry table `P` (the permutation,
duplicated). -/
def initNoise (seed : ℕ) : List ℕ := initPermutation seed ++ initPermutation seed

def fade (t : ℚ) : ℚ := t * t * t * (t * (t * 6 - 15) + 10)

def lerp (t a b : ℚ) : ℚ := a + t * (b - a)

def grad (hash : ℕ) (x y z w : ℚ) : ℚ :=
  let h := hash % 16
  let u := if h < 8 then x else y
  let v := if h < 4 then y else if h = 12 ∨ h = 14 then x else z
  let w' := if h < 4 then z else if h = 12 ∨ h = 14 then y else w
  (if h % 2 = 0 then u else -u) + (if h / 2 % 2 = 0 then v else -v) +
    (if h / 4 % 2 = 0 then w' else -w')

def perlin4D (P : List ℕ) (x y z w : ℚ) : ℚ :=
  let xi := (⌊x⌋ % 256).toNat
  let yi := (⌊y⌋ % 256).toNat
  let zi := (⌊z⌋ % 256).toNat
  let wi := (⌊w⌋ % 256).toNat
  let xf := x - (⌊x⌋ : ℚ)
  let yf := y - (⌊y⌋ : ℚ)
  let zf := z - (⌊z⌋ : ℚ)
  let wf := w - (⌊w⌋ : ℚ)
  let u := fade xf
  let v := fade yf
  let t := fade zf
  let s := fade wf
  let p0 := pAt P xi
  let p1 := pAt P (xi + 1)
  let p00 := pAt P (p0 + yi)
  let p01 := pAt P (p0 + yi + 1)
  let p10 := pAt P (p1 + yi)
  let p11 := pAt P (p1 + yi + 1)
  let p000 := pAt P (p00 + zi)
  let p001 := pAt P (p00 + zi + 1)
  let p010 := pAt P (p01 + zi)
  let p011 := pAt P (p01 + zi + 1)
  let p100 := pAt P (p10 + zi)
  let p101 := pAt P (p10 + zi + 1)
  let p110 := pAt P (p11 + zi)
  let p111 := pAt P (p11 + zi + 1)
  let g0000 := grad (pAt P (p000 + wi)) xf yf zf wf
  let g0001 := grad (pAt P (p000 + wi + 1)) xf yf zf (wf - 1)
  let g0010 := grad (pAt P (p001 + wi)) xf yf (zf - 1) wf
  let g0011 := grad (pAt P (p001 + wi + 1)) xf yf (zf - 1) (wf - 1)
  let g0100 := grad (pAt P (p010 + wi)) xf (yf - 1) zf wf
  let g0101 := grad (pAt P (p010 + wi + 1)) xf (yf - 1) zf (wf - 1)
  let g0110 := grad (pAt P (p011 + wi)) xf (yf - 1) (zf - 1) wf
  let g0111 := grad (pAt P (p011 + wi + 1)) xf (yf - 1) (zf - 1) (wf - 1)
  let g1000 := grad (pAt P (p100 + wi)) (xf - 1) yf zf wf
  let g1001 := grad (pAt P (p100 + wi + 1)) (xf - 1) yf zf (wf - 1)
  let g1010 := grad (pAt P (p101 + wi)) (xf - 1) yf (zf - 1) wf
  let g1011 := grad (pAt P (p101 + wi + 1)) (xf - 1) yf (zf - 1) (wf - 1)
  let g1100 := grad (pAt P (p110 + wi)) (xf - 1) (yf - 1) zf wf
  let g1101 := grad (pAt P (p110 + wi + 1)) (xf - 1) (yf - 1) zf (wf - 1)
  let g1110 := grad (pAt P (p111 + wi)) (xf - 1) (yf - 1) (zf - 1) wf
  let g1111 := grad (pAt P (p111 + wi + 1)) (xf - 1) (yf - 1) (zf - 1) (wf - 1)
  let l0000 := lerp s g0000 g0001
  let l0001 := lerp s g0010 g0011
  let l0010 := lerp s g0100 g0101
  let l0011 := lerp s g0110 g0111
  let l0100 := lerp s g1000 g1001
  let l0101 := lerp s g1010 g1011
  let l0110 := lerp s g1100 g1101
  let l0111 := lerp s g1110 g1111
  let l000 := lerp t l0000 l0001
  let l001 := lerp t l0010 l0011
  let l010 := lerp t l0100 l0101
  let l011 := lerp t l0110 l0111
  let l00 := lerp v l000 l001
  let l01 := lerp v l010 l011
  lerp u l00 l01

/-- The fbm octave loop, carrying `(remaining, amplitude, frequency, value,
maxValue)`; returns `(value, maxValue)`. -/
def fbmLoop (P : List ℕ) (x y z w persistence lacunarity : ℚ) :
    ℕ → ℚ → ℚ → ℚ → ℚ → ℚ × ℚ
  | 0, _, _, value, maxValue => (value, maxValue)
  | n + 1, amplitude, frequency, value, maxValue =>
    fbmLoop P x y z w persistence lacunarity n (amplitude * persistence)
      (frequency * lacunarity)
      (value + perlin4D P (x * frequency) (y * frequency) (z * frequency) (w * frequency) *
        amplitude)
      (maxValue + amplitude)

def fbmNoise (P : List ℕ) (x y z w : ℚ) (octaves : ℕ) (persistence lacunarity : ℚ) : ℚ :=
  let r := fbmLoop P x y z w persistence lacunarity octaves 1 1 0 0
  r.1 / r.2

/-! ## Basic lemmas about the helpers -/

theorem ensureNumber_num (q : ℚ) (fb : ℚ) : ensureNumber (some (JValue.num q)) fb = q := rfl

theorem ensureString_str {s : String} (fb : String) (h : 0 < (jsTrim s).length) :
    ensureString (some (JValue.str s)) fb = s := by
  have hrfl : ensureString (some (JValue.str s)) fb =
      if (jsTrim s).length > 0 then s else fb := rfl
  rw [hrfl, if_pos h]

theorem length_ne_zero_of_trim {s : String} (h : 0 < (jsTrim s).length) : s.length ≠ 0 := by
  intro h0
  have hdata : s.data = [] := List.length_eq_zero.mp h0
  have hs : s = "" := by
    cases s
    exact congrArg String.mk hdata
  rw [hs] at h
  exact absurd h (by decide)

theorem ensurePositiveInteger_natCast {n : ℕ} (fb : ℕ) (h : 1 ≤ n) :
    ensurePositiveInteger (some (JValue.num (n : ℚ))) fb 1 = n := by
  simp only [ensurePositiveInteger, jNumber?, Int.floor_natCast]
  rw [if_neg, Int.toNat_natCast]
  omega

theorem clamp01_of {q : ℚ} (h0 : 0 ≤ q) (h1 : q ≤ 1) : clamp01 q = q := by
  unfold clamp01
  rw [if_neg (by linarith), if_neg (by linarith)]

theorem clamp01_mem (q : ℚ) : 0 ≤ clamp01 q ∧ clamp01 q ≤ 1 := by
  unfold clamp01
  split_ifs <;> constructor <;> linarith

theorem clampPercentage_of {q : ℚ} (h0 : 0 ≤ q) (h1 : q ≤ 100) : clampPercentage q = q := by
  unfold clampPercentage
  rw [if_neg (by linarith), if_neg (by linarith)]

theorem clampPercentage_mem (q : ℚ) : 0 ≤ clampPercentage q ∧ clampPercentage q ≤ 100 := by
  unfold clampPercentage
  split_ifs <;> constructor <;> linarith

theorem clampLatitude_of {q : ℚ} (h0 : -90 ≤ q) (h1 : q ≤ 90) : clampLatitude q = q := by
  unfold clampLatitude
  rw [if_neg (by linarith), if_neg (by linarith)]

theorem clampLatitude_mem (q : ℚ) : -90 ≤ clampLatitude q ∧ clampLatitude q ≤ 90 := by
  unfold clampLatitude
  split_ifs <;> constructor <;> linarith

theorem clampLongitude_of {q : ℚ} (h0 : -180 ≤ q) (h1 : q ≤ 180) : clampLongitude q = q := by
  unfold clampLongitude
  rw [if_neg (by linarith), if_neg (by linarith)]

theorem clampLongitude_mem (q : ℚ) : -180 ≤ clampLongitude q ∧ clampLongitude q ≤ 180 := by
  unfold clampLongitude
  split_ifs <;> constructor <;> linarith

theorem filterMap_id_of_some {α : Type} (f : α → Option α) :
    ∀ l : List α, (∀ x ∈ l, f x = some x) → l.filterMap f = l := by
  intro l
  induction l with
  | nil => intro _; rfl
  | cons a l ih =>
    intro h
    rw [List.filterMap_cons, h a (List.mem_cons_self a l),
      ih (fun x hx => h x (List.mem_cons_of_mem a hx))]

/-! ## Date codec lemmas -/

theorem charDigit_digitChar {d : ℕ} (hd : d < 10) : charDigit? (digitChar d) = some d := by
  interval_cases d <;> decide

theorem mapDigits_map_digitChar :
    ∀ ds : List ℕ, (∀ d ∈ ds, d < 10) → mapDigits? (ds.map digitChar) = some ds := by
  intro ds
  induction ds with
  | nil => intro _; rfl
  | cons d ds ih =>
    intro h
    rw [List.map_cons]
    unfold mapDigits?
    rw [charDigit_digitChar (h d (List.mem_cons_self d ds)),
      ih (fun x hx => h x (List.mem_cons_of_mem d hx))]

theorem natDigitsAux_lt_ten :
    ∀ (fuel n : ℕ), ∀ d ∈ natDigitsAux fuel n, d < 10 := by
  intro fuel
  induction fuel with
  | zero => intro n d hd; simp [natDigitsAux] at hd
  | succ fuel ih =>
    intro n d hd
    unfold natDigitsAux at hd
    by_cases h0 : n = 0
    · rw [if_pos h0] at hd
      simp at hd
    · rw [if_neg h0] at hd
      rcases List.mem_cons.mp hd with h | h
      · omega
      · exact ih (n / 10) d h

theorem ofDigits_natDigitsAux :
    ∀ (fuel n : ℕ), n ≤ fuel → Nat.ofDigits 10 (natDigitsAux fuel n) = n := by
  intro fuel
  induction fuel with
  | zero => intro n h; interval_cases n; simp [natDigitsAux]
  | succ fuel ih =>
    intro n h
    unfold natDigitsAux
    by_cases h0 : n = 0
    · rw [if_pos h0, h0]
      simp
    · rw [if_neg h0]
      rw [Nat.ofDigits_cons, ih (n / 10) (by omega)]
      omega

theorem natDigitsAux_ne_nil {n : ℕ} (h0 : n ≠ 0) {fuel : ℕ} (hf : 1 ≤ fuel) :
    natDigitsAux fuel n ≠ [] := by
  cases fuel with
  | zero => omega
  | succ fuel =>
    unfold natDigitsAux
    rw [if_neg h0]
    simp

theorem charsToNat_natToChars (n : ℕ) : charsToNat? (natToChars n) = some n := by
  by_cases h : n = 0
  · subst h
    decide
  · unfold natToChars charsToNat?
    rw [if_neg h]
    have hne : (natDigitsAux n n).map digitChar ≠ [] := by
      simp only [ne_eq, List.map_eq_nil_iff]
      exact natDigitsAux_ne_nil h (by omega)
    rw [if_neg (by simpa using hne), List.reverse_reverse,
      mapDigits_map_digitChar _ (natDigitsAux_lt_ten n n)]
    simp [ofDigits_natDigitsAux n n (le_refl n)]

theorem dateParse_dateFormat (t : ℤ) : dateParse (dateFormat t) = some t := by
  unfold dateFormat dateParse
  by_cases ht : t < 0
  · simp only [if_pos ht, List.reverse_append, List.reverse_cons, List.reverse_nil,
      List.nil_append, List.singleton_append, List.reverse_reverse]
    simp [charsToNat_natToChars, abs_of_nonpos (le_of_lt ht)]
  · simp only [if_neg ht, List.reverse_append, List.reverse_cons, List.reverse_nil,
      List.nil_append, List.singleton_append, List.reverse_reverse]
    simp [charsToNat_natToChars, abs_of_nonneg (le_of_not_lt ht)]

/-! ## Structural validity

`PSValid` is exactly the invariant normalization establishes: canonical
version tag, non-empty trimmed identifiers, clamped numeric ranges, and the
grid-length invariants. -/

def GasValid (g : AtmosphericGasComposition) : Prop :=
  0 < (jsTrim g.gas).length ∧ 0 ≤ g.percentage ∧ g.percentage ≤ 100

def AtmosphereValid (a : AtmosphereState) : Prop :=
  a.gases ≠ [] ∧ ∀ g ∈ a.gases, GasValid g

def PlateValid (p : TectonicPlateState) : Prop :=
  0 < (jsTrim p.id).length ∧ 0 < (jsTrim p.name).length ∧
    0 ≤ p.areaFraction ∧ p.areaFraction ≤ 1

def HeightFieldValid (h : HeightFieldState) : Prop :=
  1 ≤ h.width ∧ 1 ≤ h.height ∧ h.values.length = h.width * h.height

def GeologyValid (g : GeologyState) : Prop :=
  (∀ p ∈ g.plates, PlateValid p) ∧ HeightFieldValid g.heightField ∧
    0 ≤ g.volcanismIndex ∧ g.volcanismIndex ≤ 1

def CoordinatesValid (c : Coordinates) : Prop :=
  -90 ≤ c.latitude ∧ c.latitude ≤ 90 ∧ -180 ≤ c.longitude ∧ c.longitude ≤ 180

def RiverSystemValid (r : RiverSystemState) : Prop :=
  0 < (jsTrim r.id).length ∧ 0 < (jsTrim r.name).length ∧
    CoordinatesValid r.source ∧ CoordinatesValid r.mouth

def HydrologyValid (h : HydrologyState) : Prop :=
  0 ≤ h.oceanCoverage ∧ h.oceanCoverage ≤ 1 ∧
    (∀ r ∈ h.rivers.systems, RiverSystemValid r) ∧
    0 ≤ h.iceCaps.northCoverageFraction ∧ h.iceCaps.northCoverageFraction ≤ 1 ∧
    0 ≤ h.iceCaps.southCoverageFraction ∧ h.iceCaps.southCoverageFraction ≤ 1

def BiomeCellValid (c : BiomeCellState) : Prop :=
  0 < (jsTrim c.biome).length ∧ 0 ≤ c.biodiversity ∧ c.biodiversity ≤ 1

def BiomeMapValid (b : BiomeMapState) : Prop :=
  1 ≤ b.width ∧ 1 ≤ b.height ∧ b.cells.length = b.width * b.height ∧
    ∀ c ∈ b.cells, BiomeCellValid c

def BiosphereValid (b : BiosphereState) : Prop :=
  BiomeMapValid b.biomeMap ∧ 0 ≤ b.biodiversityIndex ∧ b.biodiversityIndex ≤ 1

def PopulationCenterValid (p : PopulationCenterState) : Prop :=
  0 < (jsTrim p.id).length ∧ 0 < (jsTrim p.name).length ∧ 0 ≤ p.population ∧
    CoordinatesValid p.coordinates

def CivilizationValid (c : CivilizationState) : Prop :=
  (∀ p ∈ c.populations, PopulationCenterValid p) ∧
    0 ≤ c.pollutionIndex ∧ c.pollutionIndex ≤ 1

def ClimateValid (c : ClimateState) : Prop :=
  0 ≤ c.axialTiltDegrees ∧ c.axialTiltDegrees ≤ 90 ∧ 0 ≤ c.albedo ∧ c.albedo ≤ 1 ∧
    0 ≤ c.greenhouseMultiplier ∧ 0 ≤ c.currentTime ∧ 1 ≤ c.yearLength

def PSValid (s : PlanetState) : Prop :=
  s.version = PLANET_STATE_VERSION ∧ AtmosphereValid s.atmosphere ∧
    GeologyValid s.geology ∧ HydrologyValid s.hydrology ∧ BiosphereValid s.biosphere ∧
    CivilizationValid s.civilization ∧ ClimateValid s.climate

instance (g : AtmosphericGasComposition) : Decidable (GasValid g) := by
  unfold GasValid; infer_instance

instance (a : AtmosphereState) : Decidable (AtmosphereValid a) := by
  unfold AtmosphereValid; infer_instance

instance (p : TectonicPlateState) : Decidable (PlateValid p) := by
  unfold PlateValid; infer_instance

instance (h : HeightFieldState) : Decidable (HeightFieldValid h) := by
  unfold HeightFieldValid; infer_instance

instance (g : GeologyState) : Decidable (GeologyValid g) := by
  unfold GeologyValid; infer_instance

instance (c : Coordinates) : Decidable (CoordinatesValid c) := by
  unfold CoordinatesValid; infer_instance

instance (r : RiverSystemState) : Decidable (RiverSystemValid r) := by
  unfold RiverSystemValid; infer_instance

instance (h : HydrologyState) : Decidable (HydrologyValid h) := by
  unfold HydrologyValid; infer_instance

instance (c : BiomeCellState) : Decidable (BiomeCellValid c) := by
  unfold BiomeCellValid; infer_instance

instance (b : BiomeMapState) : Decidable (BiomeMapValid b) := by
  unfold BiomeMapValid; infer_instance

instance (b : BiosphereState) : Decidable (BiosphereValid b) := by
  unfold BiosphereValid; infer_instance

instance (p : PopulationCenterState) : Decidable (PopulationCenterValid p) := by
  unfold PopulationCenterValid; infer_instance

instance (c : CivilizationState) : Decidable (CivilizationValid c) := by
  unfold CivilizationValid; infer_instance

instance (c : ClimateState) : Decidable (ClimateValid c) := by
  unfold ClimateValid; infer_instance

instance (s : PlanetState) : Decidable (PSValid s) := by
  unfold PSValid; infer_instance

theorem ensureString_cases (v : Option JValue) (fb : String) :
    ensureString v fb = fb ∨ 0 < (jsTrim (ensureString v fb)).length := by
  unfold ensureString
  cases v with
  | none => exact Or.inl rfl
  | some jv =>
    cases jv with
    | str s =>
      simp only [jString?]
      by_cases h : (jsTrim s).length > 0
      · rw [if_pos h]; exact Or.inr h
      · rw [if_neg h]; exact Or.inl rfl
    | jnull => exact Or.inl rfl
    | jbool b => exact Or.inl rfl
    | num q => exact Or.inl rfl
    | arr xs => exact Or.inl rfl
    | obj fs => exact Or.inl rfl

/-! ## Normalization establishes validity -/

theorem normalizeAtmosphericGas_some {v : JValue} {g : AtmosphericGasComposition}
    (h : normalizeAtmosphericGas v = some g) : GasValid g := by
  cases v with
  | obj fields =>
    simp only [normalizeAtmosphericGas, jRecord?] at h
    by_cases hid : (ensureString (jGet fields "gas") "").length = 0
    · rw [if_pos hid] at h
      exact absurd h (by simp)
    · rw [if_neg hid] at h
      cases hq : jNumber? (jGet fields "percentage") with
      | none =>
        rw [hq] at h
        exact absurd h (by simp)
      | some q =>
        rw [hq] at h
        obtain rfl : _ = g := Option.some_inj.mp h
        refine ⟨?_, (clampPercentage_mem q).1, (clampPercentage_mem q).2⟩
        rcases ensureString_cases (jGet fields "gas") "" with hc | hc
        · rw [hc] at hid
          exact absurd rfl hid
        · exact hc
  | jnull => exact absurd h (by simp [normalizeAtmosphericGas, jRecord?])
  | jbool b => exact absurd h (by simp [normalizeAtmosphericGas, jRecord?])
  | num q => exact absurd h (by simp [normalizeAtmosphericGas, jRecord?])
  | str s => exact absurd h (by simp [normalizeAtmosphericGas, jRecord?])
  | arr xs => exact absurd h (by simp [normalizeAtmosphericGas, jRecord?])

theorem normalizeCoordinates_valid (v : Option JValue) :
    CoordinatesValid (normalizeCoordinates v) := by
  unfold normalizeCoordinates
  cases hv : jRecord? v with
  | none => exact ⟨by norm_num, by norm_num, by norm_num, by norm_num⟩
  | some fields =>
    exact ⟨(clampLatitude_mem _).1, (clampLatitude_mem _).2,
      (clampLongitude_mem _).1, (clampLongitude_mem _).2⟩

theorem normalizeTectonicPlate_some {v : JValue} {p : TectonicPlateState}
    (h : normalizeTectonicPlate v = some p) : PlateValid p := by
  cases v with
  | obj fields =>
    simp only [normalizeTectonicPlate, jRecord?] at h
    by_cases hid : (ensureString (jGet fields "id") "").length = 0
    · rw [if_pos hid] at h
      exact absurd h (by simp)
    · rw [if_neg hid] at h
      obtain rfl : _ = p := Option.some_inj.mp h
      have hidtrim : 0 < (jsTrim (ensureString (jGet fields "id") "")).length := by
        rcases ensureString_cases (jGet fields "id") "" with hc | hc
        · rw [hc] at hid
          exact absurd rfl hid
        · exact hc
      refine ⟨hidtrim, ?_, (clamp01_mem _).1, (clamp01_mem _).2⟩
      rcases ensureString_cases (jGet fields "name") (ensureString (jGet fields "id") "")
        with hc | hc
      · rw [hc]
        exact hidtrim
      · exact hc
  | jnull => exact absurd h (by simp [normalizeTectonicPlate, jRecord?])
  | jbool b => exact absurd h (by simp [normalizeTectonicPlate, jRecord?])
  | num q => exact absurd h (by simp [normalizeTectonicPlate, jRecord?])
  | str s => exact absurd h (by simp [normalizeTectonicPlate, jRecord?])
  | arr xs => exact absurd h (by simp [normalizeTectonicPlate, jRecord?])

theorem normalizeRiverSystem_some {v : JValue} {r : RiverSystemState}
    (h : normalizeRiverSystem v = some r) : RiverSystemValid r := by
  cases v with
  | obj fields =>
    simp only [normalizeRiverSystem, jRecord?] at h
    by_cases hid : (ensureString (jGet fields "id") "").length = 0
    · rw [if_pos hid] at h
      exact absurd h (by simp)
    · rw [if_neg hid] at h
      obtain rfl : _ = r := Option.some_inj.mp h
      have hidtrim : 0 < (jsTrim (ensureString (jGet fields "id") "")).length := by
        rcases ensureString_cases (jGet fields "id") "" with hc | hc
        · rw [hc] at hid
          exact absurd rfl hid
        · exact hc
      refine ⟨hidtrim, ?_, normalizeCoordinates_valid _, normalizeCoordinates_valid _⟩
      rcases ensureString_cases (jGet fields "name") (ensureString (jGet fields "id") "")
        with hc | hc
      · rw [hc]
        exact hidtrim
      · exact hc
  | jnull => exact absurd h (by simp [normalizeRiverSystem, jRecord?])
  | jbool b => exact absurd h (by simp [normalizeRiverSystem, jRecord?])
  | num q => exact absurd h (by simp [normalizeRiverSystem, jRecord?])
  | str s => exact absurd h (by simp [normalizeRiverSystem, jRecord?])
  | arr xs => exact absurd h (by simp [normalizeRiverSystem, jRecord?])

theorem normalizeBiomeCell_some {v : JValue} {c : BiomeCellState}
    (h : normalizeBiomeCell v = some c) : BiomeCellValid c := by
  cases v with
  | obj fields =>
    simp only [normalizeBiomeCell, jRecord?] at h
    by_cases hb : (ensureString (jGet fields "biome") "").length = 0
    · rw [if_pos hb] at h
      exact absurd h (by simp)
    · rw [if_neg hb] at h
      obtain rfl : _ = c := Option.some_inj.mp h
      refine ⟨?_, (clamp01_mem _).1, (clamp01_mem _).2⟩
      rcases ensureString_cases (jGet fields "biome") "" with hc | hc
      · rw [hc] at hb
        exact absurd rfl hb
      · exact hc
  | jnull => exact absurd h (by simp [normalizeBiomeCell, jRecord?])
  | jbool b => exact absurd h (by simp [normalizeBiomeCell, jRecord?])
  | num q => exact absurd h (by simp [normalizeBiomeCell, jRecord?])
  | str s => exact absurd h (by simp [normalizeBiomeCell, jRecord?])
  | arr xs => exact absurd h (by simp [normalizeBiomeCell, jRecord?])

theorem normalizePopulationCenter_some {v : JValue} {p : PopulationCenterState}
    (h : normalizePopulationCenter v = some p) : PopulationCenterValid p := by
  cases v with
  | obj fields =>
    simp only [normalizePopulationCenter, jRecord?] at h
    by_cases hid : (ensureString (jGet fields "id") "").length = 0
    · rw [if_pos hid] at h
      exact absurd h (by simp)
    · rw [if_neg hid] at h
      obtain rfl : _ = p := Option.some_inj.mp h
      have hidtrim : 0 < (jsTrim (ensureString (jGet fields "id") "")).length := by
        rcases ensureString_cases (jGet fields "id") "" with hc | hc
        · rw [hc] at hid
          exact absurd rfl hid
        · exact hc
      refine ⟨hidtrim, ?_, le_max_left 0 _, normalizeCoordinates_valid _⟩
      rcases ensureString_cases (jGet fields "name") (ensureString (jGet fields "id") "")
        with hc | hc
      · rw [hc]
        exact hidtrim
      · exact hc
  | jnull => exact absurd h (by simp [normalizePopulationCenter, jRecord?])
  | jbool b => exact absurd h (by simp [normalizePopulationCenter, jRecord?])
  | num q => exact absurd h (by simp [normalizePopulationCenter, jRecord?])
  | str s => exact absurd h (by simp [normalizePopulationCenter, jRecord?])
  | arr xs => exact absurd h (by simp [normalizePopulationCenter, jRecord?])

theorem ensurePositiveInteger_ge {v : Option JValue} {fb minimum : ℕ}
    (hfb : minimum ≤ fb) : minimum ≤ ensurePositiveInteger v fb minimum := by
  unfold ensurePositiveInteger
  cases jNumber? v with
  | none => exact hfb
  | some q =>
    simp only
    split
    · exact hfb
    · omega

theorem normalizeAtmosphere_valid (v : Option JValue) :
    AtmosphereValid (normalizeAtmosphere v) := by
  have hdef : AtmosphereValid createDefaultAtmosphereState := by decide
  unfold normalizeAtmosphere
  cases hv : jRecord? v with
  | none => exact hdef
  | some fields =>
    simp only
    cases ha : jArray? (jGet fields "gases") with
    | none => exact ⟨hdef.1, hdef.2⟩
    | some xs =>
      simp only [Option.map_some']
      by_cases hlen : (xs.filterMap normalizeAtmosphericGas).length > 0
      · rw [if_pos hlen]
        refine ⟨?_, ?_⟩
        · exact List.ne_nil_of_length_pos hlen
        · intro g hg
          obtain ⟨x, _, hx⟩ := List.mem_filterMap.mp hg
          exact normalizeAtmosphericGas_some hx
      · rw [if_neg hlen]
        exact ⟨hdef.1, hdef.2⟩

theorem createDefaultHeightFieldState_valid : HeightFieldValid createDefaultHeightFieldState := by
  refine ⟨by decide, by decide, ?_⟩
  exact List.length_replicate _ _

theorem createDefaultBiomeMapState_valid : BiomeMapValid createDefaultBiomeMapState := by
  refine ⟨by decide, by decide, ?_, ?_⟩
  · exact List.length_replicate _ _
  · intro c hc
    simp only [createDefaultBiomeMapState, padBiomeCells, List.mem_replicate] at hc
    rw [hc.2]
    decide

theorem normalizeHeightField_valid (v : Option JValue) :
    HeightFieldValid (normalizeHeightField v) := by
  unfold normalizeHeightField
  cases hv : jRecord? v with
  | none => exact createDefaultHeightFieldState_valid
  | some fields =>
    refine ⟨ensurePositiveInteger_ge (by decide), ensurePositiveInteger_ge (by decide), ?_⟩
    simp only [HeightFieldState.values, padArray, List.length_append, List.length_take,
      List.length_replicate, List.length_map]
    omega

theorem normalizeGeology_valid (v : Option JValue) : GeologyValid (normalizeGeology v) := by
  unfold normalizeGeology
  cases hv : jRecord? v with
  | none =>
    refine ⟨by simp [createDefaultGeologyState, createDefaultTectonicPlates], ?_, by decide,
      by decide⟩
    exact createDefaultHeightFieldState_valid
  | some fields =>
    refine ⟨?_, normalizeHeightField_valid _, (clamp01_mem _).1, (clamp01_mem _).2⟩
    simp only
    cases ha : jArray? (jGet fields "plates") with
    | none =>
      intro p hp
      simp [Option.map_none', createDefaultGeologyState, createDefaultTectonicPlates] at hp
    | some xs =>
      simp only [Option.map_some', Option.getD_some]
      intro p hp
      obtain ⟨x, _, hx⟩ := List.mem_filterMap.mp hp
      exact normalizeTectonicPlate_some hx

theorem normalizeRiverNetwork_systems_valid (v : Option JValue) :
    ∀ r ∈ (normalizeRiverNetwork v).systems, RiverSystemValid r := by
  unfold normalizeRiverNetwork
  cases hv : jRecord? v with
  | none => intro r hr; simp [createDefaultRiverNetworkState] at hr
  | some fields =>
    simp only
    cases ha : jArray? (jGet fields "systems") with
    | none =>
      intro r hr
      simp [Option.map_none', createDefaultRiverNetworkState] at hr
    | some xs =>
      simp only [Option.map_some', Option.getD_some]
      intro r hr
      obtain ⟨x, _, hx⟩ := List.mem_filterMap.mp hr
      exact normalizeRiverSystem_some hx

theorem normalizeIceCaps_valid (v : Option JValue) :
    0 ≤ (normalizeIceCaps v).northCoverageFraction ∧
      (normalizeIceCaps v).northCoverageFraction ≤ 1 ∧
      0 ≤ (normalizeIceCaps v).southCoverageFraction ∧
      (normalizeIceCaps v).southCoverageFraction ≤ 1 := by
  unfold normalizeIceCaps
  cases hv : jRecord? v with
  | none => decide
  | some fields =>
    exact ⟨(clamp01_mem _).1, (clamp01_mem _).2, (clamp01_mem _).1, (clamp01_mem _).2⟩

theorem normalizeHydrology_valid (v : Option JValue) :
    HydrologyValid (normalizeHydrology v) := by
  unfold normalizeHydrology
  cases hv : jRecord? v with
  | none =>
    refine ⟨by decide, by decide, ?_, by decide, by decide, by decide, by decide⟩
    intro r hr
    simp [createDefaultHydrologyState, createDefaultRiverNetworkState] at hr
  | some fields =>
    obtain ⟨h1, h2, h3, h4⟩ := normalizeIceCaps_valid (jGet fields "iceCaps")
    exact ⟨(clamp01_mem _).1, (clamp01_mem _).2,
      normalizeRiverNetwork_systems_valid _, h1, h2, h3, h4⟩

theorem normalizeBiomeMap_valid (v : Option JValue) : BiomeMapValid (normalizeBiomeMap v) := by
  unfold normalizeBiomeMap
  cases hv : jRecord? v with
  | none => exact createDefaultBiomeMapState_valid
  | some fields =>
    refine ⟨ensurePositiveInteger_ge (by decide), ensurePositiveInteger_ge (by decide), ?_, ?_⟩
    · simp only [BiomeMapState.cells, padBiomeCells, List.length_append, List.length_take,
        List.length_replicate]
      omega
    · intro c hc
      simp only [BiomeMapState.cells] at hc
      rcases List.mem_append.mp hc with hc | hc
      · obtain ⟨x, _, hx⟩ := List.mem_filterMap.mp (List.mem_of_mem_take hc)
        exact normalizeBiomeCell_some hx
      · rw [padBiomeCells, List.mem_replicate] at hc
        rw [hc.2]
        decide

theorem normalizeBiosphere_valid (v : Option JValue) :
    BiosphereValid (normalizeBiosphere v) := by
  unfold normalizeBiosphere
  cases hv : jRecord? v with
  | none =>
    exact ⟨createDefaultBiomeMapState_valid, by decide, by decide⟩
  | some fields =>
    exact ⟨normalizeBiomeMap_valid _, (clamp01_mem _).1, (clamp01_mem _).2⟩

theorem normalizeCivilization_valid (v : Option JValue) :
    CivilizationValid (normalizeCivilization v) := by
  unfold normalizeCivilization
  cases hv : jRecord? v with
  | none =>
    refine ⟨?_, by decide, by decide⟩
    intro p hp
    simp [createDefaultCivilizationState] at hp
  | some fields =>
    refine ⟨?_, (clamp01_mem _).1, (clamp01_mem _).2⟩
    simp only
    cases ha : jArray? (jGet fields "populations") with
    | none =>
      intro p hp
      simp [Option.map_none', createDefaultCivilizationState] at hp
    | some xs =>
      simp only [Option.map_some', Option.getD_some]
      intro p hp
      obtain ⟨x, _, hx⟩ := List.mem_filterMap.mp hp
      exact normalizePopulationCenter_some hx

theorem normalizeClimate_valid (v : Option JValue) : ClimateValid (normalizeClimate v) := by
  unfold normalizeClimate
  cases hv : jRecord? v with
  | none => decide
  | some fields =>
    refine ⟨?_, ?_, (clamp01_mem _).1, (clamp01_mem _).2, le_max_left 0 _, le_max_left 0 _,
      le_max_left 1 _⟩
    · exact le_min (le_max_right _ 0) (by norm_num)
    · exact min_le_right _ 90

theorem normalizePlanetStateV1_valid (fields : List (String × JValue)) :
    PSValid (normalizePlanetStateV1 fields) :=
  ⟨rfl, normalizeAtmosphere_valid _, normalizeGeology_valid _, normalizeHydrology_valid _,
    normalizeBiosphere_valid _, normalizeCivilization_valid _, normalizeClimate_valid _⟩

theorem createDefaultPlanetState_valid : PSValid createDefaultPlanetState := by
  refine ⟨rfl, by decide, ⟨by decide, createDefaultHeightFieldState_valid, by decide, by decide⟩,
    ?_, ⟨createDefaultBiomeMapState_valid, by decide, by decide⟩, ?_, by decide⟩
  · refine ⟨by decide, by decide, ?_, by decide, by decide, by decide, by decide⟩
    intro r hr
    simp [createDefaultPlanetState, createDefaultHydrologyState,
      createDefaultRiverNetworkState] at hr
  · refine ⟨?_, by decide, by decide⟩
    intro p hp
    simp [createDefaultPlanetState, createDefaultCivilizationState] at hp

theorem migratePlanetState_valid {v : JValue} {s : PlanetState}
    (h : migratePlanetState v = Except.ok s) : PSValid s := by
  unfold migratePlanetState at h
  cases hv : jRecord? (some v) with
  | none =>
    rw [hv] at h
    obtain rfl : _ = s := Except.ok.inj h
    exact createDefaultPlanetState_valid
  | some fields =>
    rw [hv] at h
    simp only [planetStateNormalizerFor] at h
    by_cases hver :
        ensurePositiveInteger (jGet fields "version") PLANET_STATE_VERSION 1 =
          PLANET_STATE_VERSION
    · rw [if_pos hver] at h
      obtain rfl : _ = s := Except.ok.inj h
      exact normalizePlanetStateV1_valid fields
    · rw [if_neg hver] at h
      exact absurd h (by simp)

theorem deserializePlanetState_valid {v : JValue} {s : PlanetState}
    (h : deserializePlanetState v = Except.ok s) : PSValid s := by
  cases v with
  | str str =>
    simp only [deserializePlanetState] at h
    cases hp : parseJsonText str with
    | none =>
      rw [hp] at h
      exact absurd h (by simp)
    | some parsed =>
      rw [hp] at h
      exact migratePlanetState_valid h
  | jnull => exact migratePlanetState_valid (by simpa [deserializePlanetState] using h)
  | jbool b => exact migratePlanetState_valid (by simpa [deserializePlanetState] using h)
  | num q => exact migratePlanetState_valid (by simpa [deserializePlanetState] using h)
  | arr xs => exact migratePlanetState_valid (by simpa [deserializePlanetState] using h)
  | obj fields => exact migratePlanetState_valid (by simpa [deserializePlanetState] using h)

/-! ## Serialization round-trips on valid states -/

theorem normalizeAtmosphericGas_toJson {g : AtmosphericGasComposition} (hg : GasValid g) :
    normalizeAtmosphericGas (gasToJson g) = some g := by
  obtain ⟨htrim, h0, h100⟩ := hg
  have h1 := ensureString_str (s := g.gas) "" htrim
  have h2 := length_ne_zero_of_trim htrim
  simp [gasToJson, normalizeAtmosphericGas, jRecord?, jGet, List.lookup, jNumber?, h1, h2,
    clampPercentage_of h0 h100]

theorem normalizeAtmosphere_toJson {a : AtmosphereState} (ha : AtmosphereValid a) :
    normalizeAtmosphere (some (atmosphereToJson a)) = a := by
  obtain ⟨hne, hg⟩ := ha
  obtain ⟨gases, sp, gc⟩ := a
  have hfm : gases.filterMap (normalizeAtmosphericGas ∘ gasToJson) = gases :=
    filterMap_id_of_some _ _ (fun x hx => normalizeAtmosphericGas_toJson (hg x hx))
  have hlen : 0 < gases.length := List.length_pos.mpr (by simpa using hne)
  simp [normalizeAtmosphere, atmosphereToJson, jRecord?, jGet, List.lookup, jArray?,
    List.filterMap_map, jNumber?, hfm, hlen, ensureNumber_num]

theorem normalizeHeightField_toJson {h : HeightFieldState} (hh : HeightFieldValid h) :
    normalizeHeightField (some (heightFieldToJson h)) = h := by
  obtain ⟨hw, hhh, hlen⟩ := hh
  obtain ⟨w, ht, values⟩ := h
  have hmap : values.map ((fun entry => ensureNumber (some entry) 0) ∘ JValue.num) = values := by
    rw [show ((fun entry => ensureNumber (some entry) 0) ∘ JValue.num) = id from rfl,
      List.map_id]
  simp [normalizeHeightField, heightFieldToJson, jRecord?, jGet, List.lookup, jArray?,
    List.filterMap_map, ensurePositiveInteger_natCast _ hw, ensurePositiveInteger_natCast _ hhh,
    List.map_map, hmap, List.take_of_length_le (le_of_eq hlen), padArray, hlen]

theorem plateType_roundtrip (t : TectonicPlateType) :
    (if plateTypeToString t = "oceanic" then TectonicPlateType.oceanic
      else TectonicPlateType.continental) = t := by
  cases t <;> rfl

theorem normalizeTectonicPlate_toJson {p : TectonicPlateState} (hp : PlateValid p) :
    normalizeTectonicPlate (plateToJson p) = some p := by
  obtain ⟨hid, hname, h0, h1⟩ := hp
  have e1 := ensureString_str (s := p.id) "" hid
  have e2 := length_ne_zero_of_trim hid
  have e3 := ensureString_str (s := p.name) p.id hname
  simp [plateToJson, normalizeTectonicPlate, jRecord?, jGet, List.lookup,
    plateType_roundtrip, e1, e2, e3, ensureNumber_num, clamp01_of h0 h1]

theorem normalizeGeology_toJson {g : GeologyState} (hg : GeologyValid g) :
    normalizeGeology (some (geologyToJson g)) = g := by
  obtain ⟨hplates, hhf, hv0, hv1⟩ := hg
  obtain ⟨plates, heightField, volcanismIndex⟩ := g
  have hfm : plates.filterMap (normalizeTectonicPlate ∘ plateToJson) = plates :=
    filterMap_id_of_some _ _ (fun x hx => normalizeTectonicPlate_toJson (hplates x hx))
  simp [normalizeGeology, geologyToJson, jRecord?, jGet, List.lookup, jArray?,
    List.filterMap_map, hfm, normalizeHeightField_toJson hhf, ensureNumber_num,
    clamp01_of hv0 hv1]

theorem normalizeCoordinates_toJson {c : Coordinates} (hc : CoordinatesValid c) :
    normalizeCoordinates (some (coordinatesToJson c)) = c := by
  obtain ⟨h1, h2, h3, h4⟩ := hc
  simp [normalizeCoordinates, coordinatesToJson, jRecord?, jGet, List.lookup, ensureNumber_num,
    clampLatitude_of h1 h2, clampLongitude_of h3 h4]

theorem normalizeRiverSystem_toJson {r : RiverSystemState} (hr : RiverSystemValid r) :
    normalizeRiverSystem (riverSystemToJson r) = some r := by
  obtain ⟨hid, hname, hsrc, hmouth⟩ := hr
  have e1 := ensureString_str (s := r.id) "" hid
  have e2 := length_ne_zero_of_trim hid
  have e3 := ensureString_str (s := r.name) r.id hname
  simp [riverSystemToJson, normalizeRiverSystem, jRecord?, jGet, List.lookup, e1, e2, e3,
    ensureNumber_num, normalizeCoordinates_toJson hsrc, normalizeCoordinates_toJson hmouth]

theorem normalizeRiverNetwork_toJson {n : RiverNetworkState}
    (hn : ∀ r ∈ n.systems, RiverSystemValid r) :
    normalizeRiverNetwork (some (riverNetworkToJson n)) = n := by
  obtain ⟨seed, systems⟩ := n
  have hfm : systems.filterMap (normalizeRiverSystem ∘ riverSystemToJson) = systems :=
    filterMap_id_of_some _ _ (fun x hx => normalizeRiverSystem_toJson (hn x hx))
  cases seed with
  | none =>
    simp [normalizeRiverNetwork, riverNetworkToJson, jRecord?, jGet, List.lookup, jArray?,
      List.filterMap_map, hfm, jNumber?, createDefaultRiverNetworkState]
  | some q =>
    simp [normalizeRiverNetwork, riverNetworkToJson, jRecord?, jGet, List.lookup, jArray?,
      List.filterMap_map, hfm, jNumber?]

theorem normalizeIceCaps_toJson {i : IceCapsState}
    (h1 : 0 ≤ i.northCoverageFraction) (h2 : i.northCoverageFraction ≤ 1)
    (h3 : 0 ≤ i.southCoverageFraction) (h4 : i.southCoverageFraction ≤ 1) :
    normalizeIceCaps (some (iceCapsToJson i)) = i := by
  simp [normalizeIceCaps, iceCapsToJson, jRecord?, jGet, List.lookup, ensureNumber_num,
    clamp01_of h1 h2, clamp01_of h3 h4]

theorem normalizeHydrology_toJson {h : HydrologyState} (hh : HydrologyValid h) :
    normalizeHydrology (some (hydrologyToJson h)) = h := by
  obtain ⟨h1, h2, hsys, h3, h4, h5, h6⟩ := hh
  simp [normalizeHydrology, hydrologyToJson, jRecord?, jGet, List.lookup, ensureNumber_num,
    clamp01_of h1 h2, normalizeRiverNetwork_toJson hsys, normalizeIceCaps_toJson h3 h4 h5 h6]

theorem normalizeBiomeCell_toJson {c : BiomeCellState} (hc : BiomeCellValid c) :
    normalizeBiomeCell (biomeCellToJson c) = some c := by
  obtain ⟨htrim, h0, h1⟩ := hc
  have e1 := ensureString_str (s := c.biome) "" htrim
  have e2 := length_ne_zero_of_trim htrim
  simp [biomeCellToJson, normalizeBiomeCell, jRecord?, jGet, List.lookup, e1, e2,
    ensureNumber_num, clamp01_of h0 h1]

theorem normalizeBiomeMap_toJson {b : BiomeMapState} (hb : BiomeMapValid b) :
    normalizeBiomeMap (some (biomeMapToJson b)) = b := by
  obtain ⟨hw, hh, hlen, hcells⟩ := hb
  obtain ⟨w, h, cells⟩ := b
  have hfm : cells.filterMap (normalizeBiomeCell ∘ biomeCellToJson) = cells :=
    filterMap_id_of_some _ _ (fun x hx => normalizeBiomeCell_toJson (hcells x hx))
  simp [normalizeBiomeMap, biomeMapToJson, jRecord?, jGet, List.lookup, jArray?,
    List.filterMap_map, hfm, ensurePositiveInteger_natCast _ hw,
    ensurePositiveInteger_natCast _ hh, List.take_of_length_le (le_of_eq hlen),
    padBiomeCells, hlen]

theorem normalizeBiosphere_toJson {b : BiosphereState} (hb : BiosphereValid b) :
    normalizeBiosphere (some (biosphereToJson b)) = b := by
  obtain ⟨hm, h0, h1⟩ := hb
  simp [normalizeBiosphere, biosphereToJson, jRecord?, jGet, List.lookup, ensureNumber_num,
    normalizeBiomeMap_toJson hm, clamp01_of h0 h1]

theorem populationKind_roundtrip (k : CivilizationPopulationKind) :
    (if populationKindToString k = "settlement" then CivilizationPopulationKind.settlement
      else if populationKindToString k = "city" then CivilizationPopulationKind.city
      else CivilizationPopulationKind.outpost) = k := by
  cases k <;> rfl

theorem normalizePopulationCenter_toJson {p : PopulationCenterState}
    (hp : PopulationCenterValid p) : normalizePopulationCenter (populationToJson p) = some p := by
  obtain ⟨hid, hname, hpop, hco⟩ := hp
  have e1 := ensureString_str (s := p.id) "" hid
  have e2 := length_ne_zero_of_trim hid
  have e3 := ensureString_str (s := p.name) p.id hname
  simp [populationToJson, normalizePopulationCenter, jRecord?, jGet, List.lookup,
    populationKind_roundtrip, e1, e2, e3, ensureNumber_num, max_eq_right hpop,
    normalizeCoordinates_toJson hco]

theorem techLevel_roundtrip (t : CivilizationTechLevel) :
    (if techLevelToString t = "tribal" then CivilizationTechLevel.tribal
      else if techLevelToString t = "agrarian" then CivilizationTechLevel.agrarian
      else if techLevelToString t = "industrial" then CivilizationTechLevel.industrial
      else if techLevelToString t = "digital" then CivilizationTechLevel.digital
      else if techLevelToString t = "spacefaring" then CivilizationTechLevel.spacefaring
      else CivilizationTechLevel.none) = t := by
  cases t <;> rfl

theorem normalizeCivilization_toJson {c : CivilizationState} (hc : CivilizationValid c) :
    normalizeCivilization (some (civilizationToJson c)) = c := by
  obtain ⟨hpop, h0, h1⟩ := hc
  obtain ⟨populations, techLevel, pollutionIndex⟩ := c
  have hfm : populations.filterMap (normalizePopulationCenter ∘ populationToJson) =
      populations :=
    filterMap_id_of_some _ _ (fun x hx => normalizePopulationCenter_toJson (hpop x hx))
  simp [normalizeCivilization, civilizationToJson, jRecord?, jGet, List.lookup, jArray?,
    List.filterMap_map, hfm, techLevel_roundtrip, ensureNumber_num, clamp01_of h0 h1]

theorem normalizeClimate_toJson {c : ClimateState} (hc : ClimateValid c) :
    normalizeClimate (some (climateToJson c)) = c := by
  obtain ⟨h1, h2, h3, h4, h5, h6, h7⟩ := hc
  simp [normalizeClimate, climateToJson, jRecord?, jGet, List.lookup, ensureNumber_num,
    max_eq_left h1, min_eq_left h2, clamp01_of h3 h4, max_eq_right h5, max_eq_right h6,
    max_eq_right h7]

theorem migratePlanetState_toJson {s : PlanetState} (hs : PSValid s) :
    migratePlanetState (planetStateToJson s) = Except.ok s := by
  obtain ⟨hver, ha, hg, hh, hb, hc, hcl⟩ := hs
  obtain ⟨ver, atm, geo, hyd, bio, civ, cli⟩ := s
  have hv : ver = PLANET_STATE_VERSION := hver
  subst hv
  have hv1 : ensurePositiveInteger (some (JValue.num 1)) 1 1 = 1 := by
    simp [ensurePositiveInteger, jNumber?]
  simp [migratePlanetState, planetStateToJson, jRecord?, jGet, List.lookup,
    planetStateNormalizerFor, normalizePlanetStateV1, PLANET_STATE_VERSION, hv1,
    normalizeAtmosphere_toJson ha,
    normalizeGeology_toJson hg, normalizeHydrology_toJson hh, normalizeBiosphere_toJson hb,
    normalizeCivilization_toJson hc, normalizeClimate_toJson hcl]

theorem deserializePlanetState_toJson {s : PlanetState} (hs : PSValid s) :
    deserializePlanetState (serializePlanetState s) = Except.ok s := by
  have h := migratePlanetState_toJson hs
  simpa [deserializePlanetState, serializePlanetState, planetStateToJson] using h

/-! ## Claim theorems: planet state -/

/-- C1: for every planet state `s` produced by `createDefaultPlanetState` or
by `deserializePlanetState` (which normalizes arbitrary input),
`deserializePlanetState (serializePlanetState s) = s`. -/
theorem spec_C1_roundtrip :
    deserializePlanetState (serializePlanetState createDefaultPlanetState) =
      Except.ok createDefaultPlanetState ∧
    ∀ (payload : JValue) (s : PlanetState), deserializePlanetState payload = Except.ok s →
      deserializePlanetState (serializePlanetState s) = Except.ok s := by
  refine ⟨deserializePlanetState_toJson createDefaultPlanetState_valid, ?_⟩
  intro payload s h
  exact deserializePlanetState_toJson (deserializePlanetState_valid h)

theorem spec_C1_roundtrip_witness :
    deserializePlanetState (serializePlanetState createDefaultPlanetState) =
      Except.ok createDefaultPlanetState :=
  spec_C1_roundtrip.2 (JValue.obj []) createDefaultPlanetState rfl

/-- C2: for every input (missing dimensions, empty value arrays, oversized
arrays included) the normalized grids satisfy
`values.length = width * height` / `cells.length = width * height`, both for
the section normalizers and inside a fully normalized state. -/
theorem spec_C2_grid_invariant (v : Option JValue) (fields : List (String × JValue)) :
    (normalizeHeightField v).values.length =
      (normalizeHeightField v).width * (normalizeHeightField v).height ∧
    (normalizeBiomeMap v).cells.length =
      (normalizeBiomeMap v).width * (normalizeBiomeMap v).height ∧
    (normalizePlanetStateV1 fields).geology.heightField.values.length =
      (normalizePlanetStateV1 fields).geology.heightField.width *
        (normalizePlanetStateV1 fields).geology.heightField.height ∧
    (normalizePlanetStateV1 fields).biosphere.biomeMap.cells.length =
      (normalizePlanetStateV1 fields).biosphere.biomeMap.width *
        (normalizePlanetStateV1 fields).biosphere.biomeMap.height := by
  refine ⟨(normalizeHeightField_valid v).2.2, (normalizeBiomeMap_valid v).2.2.1, ?_, ?_⟩
  · exact (normalizePlanetStateV1_valid fields).2.2.1.2.1.2.2
  · exact (normalizePlanetStateV1_valid fields).2.2.2.2.1.1.2.2.1

/-- Section defaulting on non-object input, one lemma per section. -/
theorem normalizeAtmosphere_default {v : Option JValue} (h : jRecord? v = none) :
    normalizeAtmosphere v = createDefaultAtmosphereState := by
  unfold normalizeAtmosphere
  rw [h]

theorem normalizeGeology_default {v : Option JValue} (h : jRecord? v = none) :
    normalizeGeology v = createDefaultGeologyState := by
  unfold normalizeGeology
  rw [h]

theorem normalizeHydrology_default {v : Option JValue} (h : jRecord? v = none) :
    normalizeHydrology v = createDefaultHydrologyState := by
  unfold normalizeHydrology
  rw [h]

theorem normalizeBiosphere_default {v : Option JValue} (h : jRecord? v = none) :
    normalizeBiosphere v = createDefaultBiosphereState := by
  unfold normalizeBiosphere
  rw [h]

theorem normalizeCivilization_default {v : Option JValue} (h : jRecord? v = none) :
    normalizeCivilization v = createDefaultCivilizationState := by
  unfold normalizeCivilization
  rw [h]

theorem normalizeClimate_default {v : Option JValue} (h : jRecord? v = none) :
    normalizeClimate v = createDefaultClimateState := by
  unfold normalizeClimate
  rw [h]

/-- C3: normalization of a version-supported object is total and
self-healing: the result is always structurally valid (every bounded leaf
clamped into range), any non-object section becomes that section's default
wholesale, array entries without a usable id are dropped entry-by-entry
(the rest of the array survives), and an entry whose id is missing or empty
is exactly what gets dropped. -/
theorem spec_C3_total_normalization (fields : List (String × JValue)) :
    PSValid (normalizePlanetStateV1 fields) ∧
    (jRecord? (jGet fields "atmosphere") = none →
      (normalizePlanetStateV1 fields).atmosphere = createDefaultAtmosphereState) ∧
    (jRecord? (jGet fields "geology") = none →
      (normalizePlanetStateV1 fields).geology = createDefaultGeologyState) ∧
    (jRecord? (jGet fields "hydrology") = none →
      (normalizePlanetStateV1 fields).hydrology = createDefaultHydrologyState) ∧
    (jRecord? (jGet fields "biosphere") = none →
      (normalizePlanetStateV1 fields).biosphere = createDefaultBiosphereState) ∧
    (jRecord? (jGet fields "civilization") = none →
      (normalizePlanetStateV1 fields).civilization = createDefaultCivilizationState) ∧
    (jRecord? (jGet fields "climate") = none →
      (normalizePlanetStateV1 fields).climate = createDefaultClimateState) ∧
    (∀ (geoFields : List (String × JValue)) (xs : List JValue),
      jGet geoFields "plates" = some (JValue.arr xs) →
      (normalizeGeology (some (JValue.obj geoFields))).plates =
        xs.filterMap normalizeTectonicPlate) ∧
    (∀ entryFields : List (String × JValue),
      (ensureString (jGet entryFields "id") "").length = 0 →
      normalizeTectonicPlate (JValue.obj entryFields) = none) := by
  refine ⟨normalizePlanetStateV1_valid fields, ?_, ?_, ?_, ?_, ?_, ?_, ?_, ?_⟩
  · intro h
    exact normalizeAtmosphere_default h
  · intro h
    exact normalizeGeology_default h
  · intro h
    exact normalizeHydrology_default h
  · intro h
    exact normalizeBiosphere_default h
  · intro h
    exact normalizeCivilization_default h
  · intro h
    exact normalizeClimate_default h
  · intro geoFields xs h
    simp [normalizeGeology, jRecord?, h, jArray?]
  · intro entryFields h
    simp [normalizeTectonicPlate, jRecord?, h]

theorem spec_C3_total_normalization_witness :
    PSValid (normalizePlanetStateV1 [("climate", JValue.num 3)]) ∧
    (normalizePlanetStateV1 [("climate", JValue.num 3)]).climate =
      createDefaultClimateState ∧
    normalizeTectonicPlate (JValue.obj [("name", JValue.str "plate-without-id")]) = none :=
  ⟨(spec_C3_total_normalization [("climate", JValue.num 3)]).1,
    (spec_C3_total_normalization [("climate", JValue.num 3)]).2.2.2.2.2.2.1 rfl,
    (spec_C3_total_normalization []).2.2.2.2.2.2.2.2
      [("name", JValue.str "plate-without-id")] rfl⟩

/-- C4 as stated is false: `migratePlanetState` resolves the version tag with
`ensurePositiveInteger(value.version, PLANET_STATE_VERSION)`, so the version
tag `0` — which is not the supported version and has no registered
normalizer — is silently replaced by the current version and the input is
normalized instead of failing with an UnsupportedVersion error. -/
theorem spec_C4_counterexample :
    deserializePlanetState (JValue.obj [("version", JValue.num 0)]) =
      Except.ok createDefaultPlanetState := rfl

/-- C4 (amended): migration resolves the version tag with fallback to the
current version (missing, non-numeric or non-positive tags resolve to the
current version); when the *resolved* version has no registered normalizer
(any value other than the current version, in particular CURRENT+1)
deserialization fails with the UnsupportedVersion error, and when it
resolves to the current version migration delegates to the v1 normalizer. -/
theorem spec_C4_version_dispatch (fields : List (String × JValue)) :
    (ensurePositiveInteger (jGet fields "version") PLANET_STATE_VERSION 1 ≠
        PLANET_STATE_VERSION →
      ∃ msg, migratePlanetState (JValue.obj fields) = Except.error msg) ∧
    (ensurePositiveInteger (jGet fields "version") PLANET_STATE_VERSION 1 =
        PLANET_STATE_VERSION →
      migratePlanetState (JValue.obj fields) = Except.ok (normalizePlanetStateV1 fields)) ∧
    deserializePlanetState (JValue.obj [("version", JValue.num 2)]) =
      Except.error "Unsupported planet state version: 2" := by
  refine ⟨?_, ?_, rfl⟩
  · intro h
    simp only [migratePlanetState, jRecord?, planetStateNormalizerFor, if_neg h]
    exact ⟨_, rfl⟩
  · intro h
    simp only [migratePlanetState, jRecord?, planetStateNormalizerFor, if_pos h]

theorem spec_C4_version_dispatch_witness :
    (∃ msg, migratePlanetState (JValue.obj [("version", JValue.num 2)]) = Except.error msg) ∧
    migratePlanetState (JValue.obj [("version", JValue.num 1)]) =
      Except.ok (normalizePlanetStateV1 [("version", JValue.num 1)]) :=
  ⟨(spec_C4_version_dispatch [("version", JValue.num 2)]).1 (by decide),
    (spec_C4_version_dispatch [("version", JValue.num 1)]).2.1 (by decide)⟩

/-! ## Claim theorems: non-object payloads (C10) -/

def isJObj : JValue → Bool
  | JValue.obj _ => true
  | _ => false

/-- The payload shapes enumerated by the claim: not a plain object — `null`,
an array, a number, a boolean, or a JSON string whose text parses to one of
these. -/
def NotPlainObjectPayload (v : JValue) : Prop :=
  match v with
  | JValue.obj _ => False
  | JValue.str s => ∃ parsed, parseJsonText s = some parsed ∧ isJObj parsed = false
  | _ => True

/-- A save payload whose `planetState` field is `v` and whose remaining
fields are well-formed. -/
def savePayloadWithPlanetState (v : JValue) : JValue :=
  JValue.obj
    [ ("version", JValue.num 1), ("metadata", JValue.obj [("slot", JValue.num 0)]),
      ("planetStateVersion", JValue.num 1), ("planetState", v) ]

theorem deserializePlanetState_nonObject {v : JValue} (hv : NotPlainObjectPayload v) :
    deserializePlanetState v = Except.ok createDefaultPlanetState := by
  cases v with
  | obj fields => exact absurd hv (by simp [NotPlainObjectPayload])
  | str s =>
    obtain ⟨parsed, hp, hobj⟩ := hv
    simp only [deserializePlanetState]
    rw [hp]
    cases parsed with
    | obj fields => exact absurd hobj (by simp [isJObj])
    | jnull => rfl
    | jbool b => rfl
    | num q => rfl
    | str s' => rfl
    | arr xs => rfl
  | jnull => rfl
  | jbool b => rfl
  | num q => rfl
  | arr xs => rfl

/-- C10: a payload that is not a plain object (null, array, number, boolean,
or a JSON string parsing to one of these) deserializes to the default planet
state without raising; consequently a save record whose `planetState` field
has such a shape deserializes successfully into a record carrying the
default planet state rather than failing as Corrupted or Incompatible. -/
theorem spec_C10_non_object_payload (v : JValue) (hv : NotPlainObjectPayload v) :
    deserializePlanetState v = Except.ok createDefaultPlanetState ∧
    deserializePlanetSave (StoredPayload.wellFormed (savePayloadWithPlanetState v)) none =
      Except.ok
        { formatVersion := PLANET_SAVE_FORMAT_VERSION
          metadata :=
            { slot := 0, label := "Slot 1", createdAt := ISO_EPOCH, updatedAt := ISO_EPOCH }
          planetStateVersion := PLANET_STATE_VERSION
          planetState := createDefaultPlanetState } := by
  have hps := deserializePlanetState_nonObject hv
  refine ⟨hps, ?_⟩
  have hparse0 : dateParse ISO_EPOCH = some 0 := dateParse_dateFormat 0
  simp [deserializePlanetSave, parseSavePayload, savePayloadWithPlanetState, jGet,
    List.lookup, jRecord?, planetSaveNormalizerFor, PLANET_SAVE_FORMAT_VERSION,
    normalizePlanetSaveV1, ssEnsurePositiveInteger, jNumber?, ensureSlotIndex,
    SAVE_SLOT_COUNT, ensureISODate, jString?, hparse0, sanitizeLabel, ssEnsureString,
    defaultSlotLabel, MAX_LABEL_LENGTH, hps, ISO_EPOCH, createDefaultPlanetState,
    PLANET_STATE_VERSION]
  constructor
  · decide
  · rw [dateParse_dateFormat]
    simp

theorem spec_C10_non_object_payload_witness :
    deserializePlanetState JValue.jnull = Except.ok createDefaultPlanetState ∧
    deserializePlanetSave (StoredPayload.wellFormed (savePayloadWithPlanetState JValue.jnull))
        none =
      Except.ok
        { formatVersion := PLANET_SAVE_FORMAT_VERSION
          metadata :=
            { slot := 0, label := "Slot 1", createdAt := ISO_EPOCH, updatedAt := ISO_EPOCH }
          planetStateVersion := PLANET_STATE_VERSION
          planetState := createDefaultPlanetState } :=
  spec_C10_non_object_payload JValue.jnull trivial

/-! ## Save-slot lemmas -/

theorem ensureSlotIndex_natCast {n : ℕ} (h : n < SAVE_SLOT_COUNT) :
    ensureSlotIndex (some (JValue.num (n : ℚ))) = some n := by
  simp only [ensureSlotIndex, jNumber?, Int.floor_natCast]
  rw [if_neg, Int.toNat_natCast]
  push_neg
  constructor
  · omega
  · exact_mod_cast h

theorem ssEnsurePositiveInteger_natCast {n : ℕ} (h : 0 < n) :
    ssEnsurePositiveInteger (some (JValue.num (n : ℚ))) = some n := by
  simp only [ssEnsurePositiveInteger, jNumber?, Int.floor_natCast]
  rw [if_pos (by exact_mod_cast h), Int.toNat_natCast]

theorem ensureISODate_cases (v : Option JValue) (fb : String) :
    (∃ t, ensureISODate v fb = dateFormat t) ∨ ensureISODate v fb = fb := by
  unfold ensureISODate
  cases jString? v with
  | none => exact Or.inr rfl
  | some s =>
    dsimp only
    cases dateParse s with
    | none => exact Or.inr rfl
    | some parsed => exact Or.inl ⟨parsed, rfl⟩

theorem ensureISODate_canonical (v : Option JValue) {fb : String} {t0 : ℤ}
    (hfb : fb = dateFormat t0) : ∃ t, ensureISODate v fb = dateFormat t := by
  rcases ensureISODate_cases v fb with ⟨t, ht⟩ | heq
  · exact ⟨t, ht⟩
  · exact ⟨t0, by rw [heq, hfb]⟩

/-- The shape of a successful `savePlanetStateToSlot`: the record that is
returned carries the planet state verbatim, and the serialized payload for
the slot key is written to storage. -/
theorem savePlanetStateToSlot_shape (storage : Storage) (now : ℤ) (slot : ℕ)
    (s : PlanetState) (opts : Option SavePlanetStateOptions) (h : slot < SAVE_SLOT_COUNT) :
    ∃ md : PlanetSaveMetadata,
      savePlanetStateToSlot storage now slot s opts =
        Except.ok
          ((fun key =>
              if key = getSlotKey slot then
                some (StoredPayload.wellFormed (buildSerializedSavePayload s md))
              else storage key),
            { formatVersion := PLANET_SAVE_FORMAT_VERSION, metadata := md,
              planetStateVersion := s.version, planetState := s }) ∧
      md.slot = slot ∧
      md.updatedAt = dateFormat ((opts.bind (fun o => o.timestamp)).getD now) ∧
      md.createdAt =
        ((tryReadSaveFromStorage storage slot).map (fun e => e.metadata.createdAt)).getD
          (dateFormat ((opts.bind (fun o => o.timestamp)).getD now)) := by
  simp only [savePlanetStateToSlot, if_neg (not_le.mpr h)]
  exact ⟨_, rfl, rfl, rfl, rfl⟩

/-- Parsing a serialized save record built from a valid planet state and a
metadata block whose slot index is in range succeeds, preserves the planet
state, and keeps the slot index. -/
theorem parseSavePayload_build_ok {s : PlanetState} (hs : PSValid s)
    (md : PlanetSaveMetadata) (hslot : md.slot < SAVE_SLOT_COUNT) :
    ∃ md' : PlanetSaveMetadata,
      parseSavePayload (StoredPayload.wellFormed (buildSerializedSavePayload s md))
          (some md.slot) =
        Except.ok
          { formatVersion := PLANET_SAVE_FORMAT_VERSION, metadata := md',
            planetStateVersion := s.version, planetState := s } ∧
      md'.slot = md.slot ∧
      md'.createdAt = ensureISODate (some (JValue.str md.createdAt)) ISO_EPOCH := by
  have hv := hs.1
  have hps : deserializePlanetState (planetStateToJson s) = Except.ok s := by
    have h := migratePlanetState_toJson hs
    simpa [deserializePlanetState, planetStateToJson] using h
  have hver : ssEnsurePositiveInteger (some (JValue.num ((s.version : ℕ) : ℚ))) =
      some s.version := ssEnsurePositiveInteger_natCast (by rw [hv]; decide)
  have hv1 : ssEnsurePositiveInteger (some (JValue.num 1)) = some 1 := by
    simp [ssEnsurePositiveInteger, jNumber?]
  simp [parseSavePayload, buildSerializedSavePayload, metadataToJson, jRecord?, jGet,
    List.lookup, planetSaveNormalizerFor, PLANET_SAVE_FORMAT_VERSION, hv, hv1, hver,
    PLANET_STATE_VERSION, normalizePlanetSaveV1, ensureSlotIndex_natCast hslot, hps]

theorem ssEnsurePositiveInteger_one :
    ssEnsurePositiveInteger (some (JValue.num 1)) = some 1 := by
  simp [ssEnsurePositiveInteger, jNumber?]

/-- C5: saving a valid planet state to slot 1 and loading slot 1 back yields
a record whose `metadata.slot` is 1 and whose `planetState` is the saved
state; deserializing a record whose embedded `metadata.slot` is 1 with
`expectedSlot = 0` fails with a Corrupted error. -/
theorem spec_C5_slot_consistency :
    (∀ (storage : Storage) (now : ℤ) (s : PlanetState)
        (opts : Option SavePlanetStateOptions), PSValid s →
      ∃ (storageAfter : Storage) (saved loaded : PlanetSave),
        savePlanetStateToSlot storage now 1 s opts = Except.ok (storageAfter, saved) ∧
        loadPlanetSaveSlot storageAfter 1 = Except.ok loaded ∧
        loaded.metadata.slot = 1 ∧ loaded.planetState = s) ∧
    (∀ (s : PlanetState) (md : PlanetSaveMetadata), md.slot = 1 →
      deserializePlanetSave (StoredPayload.wellFormed (buildSerializedSavePayload s md))
          (some 0) =
        Except.error
          (SaveParseError.corrupted "Save metadata slot 1 does not match expected slot 0")) := by
  constructor
  · intro storage now s opts hs
    obtain ⟨md, hsave, hmdslot, _, _⟩ :=
      savePlanetStateToSlot_shape storage now 1 s opts (by decide)
    obtain ⟨md', hparse, hslot', _⟩ :=
      parseSavePayload_build_ok hs md (by rw [hmdslot]; decide)
    rw [hmdslot] at hparse
    refine ⟨_, _,
      { formatVersion := PLANET_SAVE_FORMAT_VERSION, metadata := md',
        planetStateVersion := s.version, planetState := s }, hsave, ?_, ?_, rfl⟩
    · simp [loadPlanetSaveSlot, readSaveFromStorage, SAVE_SLOT_COUNT, hparse]
    · rw [hslot', hmdslot]
  · intro s md hmd1
    have hsl1 : ensureSlotIndex (some (JValue.num 1)) = some 1 := by
      have := ensureSlotIndex_natCast (n := 1) (by decide)
      simpa using this
    simp [deserializePlanetSave, parseSavePayload, buildSerializedSavePayload, metadataToJson,
      jRecord?, jGet, List.lookup, planetSaveNormalizerFor, PLANET_SAVE_FORMAT_VERSION,
      ssEnsurePositiveInteger_one, normalizePlanetSaveV1, hsl1, hmd1]
    rfl

theorem spec_C5_slot_consistency_witness :
    (∃ (storageAfter : Storage) (saved loaded : PlanetSave),
      savePlanetStateToSlot (fun _ => none) 0 1 createDefaultPlanetState none =
        Except.ok (storageAfter, saved) ∧
      loadPlanetSaveSlot storageAfter 1 = Except.ok loaded ∧
      loaded.metadata.slot = 1 ∧ loaded.planetState = createDefaultPlanetState) ∧
    deserializePlanetSave
        (StoredPayload.wellFormed (buildSerializedSavePayload createDefaultPlanetState
          { slot := 1, label := "Alpha", createdAt := dateFormat 0,
            updatedAt := dateFormat 0 }))
        (some 0) =
      Except.error
        (SaveParseError.corrupted "Save metadata slot 1 does not match expected slot 0") :=
  ⟨spec_C5_slot_consistency.1 (fun _ => none) 0 createDefaultPlanetState none
      createDefaultPlanetState_valid,
    spec_C5_slot_consistency.2 createDefaultPlanetState
      { slot := 1, label := "Alpha", createdAt := dateFormat 0, updatedAt := dateFormat 0 }
      rfl⟩

/-- Every record the save-record normalizer accepts has canonical parseable
timestamps with `createdAt ≤ updatedAt`. -/
theorem normalizePlanetSaveV1_dates {payload : List (String × JValue)} {es : Option ℕ}
    {rec : PlanetSave} (h : normalizePlanetSaveV1 payload es = Except.ok rec) :
    ∃ ct ut, dateParse rec.metadata.createdAt = some ct ∧
      dateParse rec.metadata.updatedAt = some ut ∧ ct ≤ ut := by
  unfold normalizePlanetSaveV1 at h
  cases hm : jRecord? (jGet payload "metadata") with
  | none =>
    rw [hm] at h
    exact absurd h (by simp)
  | some fields =>
    rw [hm] at h
    dsimp only at h
    split at h
    · exact absurd h (by simp)
    · exact absurd h (by simp)
    · split at h
      · exact absurd h (by simp)
      · split at h
        · exact absurd h (by simp)
        · split at h
          · exact absurd h (by simp)
          · split at h
            · exact absurd h (by simp)
            · split at h
              · exact absurd h (by simp)
              · split at h
                · exact absurd h (by simp)
                · obtain rfl : _ = rec := Except.ok.inj h
                  obtain ⟨ct0, hct⟩ :=
                    ensureISODate_canonical (jGet fields "createdAt")
                      (show ISO_EPOCH = dateFormat 0 from rfl)
                  obtain ⟨ut0, hut⟩ :=
                    ensureISODate_canonical (jGet fields "updatedAt") hct
                  rw [hct] at hut
                  simp only [hct, hut, dateParse_dateFormat]
                  by_cases hlt : ut0 < ct0
                  · rw [if_pos hlt]
                    exact ⟨ct0, ct0, rfl, by rw [dateParse_dateFormat], le_refl ct0⟩
                  · rw [if_neg hlt]
                    exact ⟨ct0, ut0, rfl, by rw [dateParse_dateFormat], le_of_not_lt hlt⟩

theorem parseSavePayload_dates {payload : StoredPayload} {es : Option ℕ} {rec : PlanetSave}
    (h : parseSavePayload payload es = Except.ok rec) :
    ∃ ct ut, dateParse rec.metadata.createdAt = some ct ∧
      dateParse rec.metadata.updatedAt = some ut ∧ ct ≤ ut := by
  cases payload with
  | malformed t => exact absurd h (by simp [parseSavePayload])
  | wellFormed raw =>
    unfold parseSavePayload at h
    dsimp only at h
    split at h
    · exact absurd h (by simp)
    · split at h
      · exact absurd h (by simp)
      · split at h
        · exact absurd h (by simp)
        · rename_i version hnorm
          split at h
          · exact absurd h (by simp)
          · rename_i normalizer heqn
            simp only [planetSaveNormalizerFor] at heqn
            split_ifs at heqn
            obtain rfl : normalizePlanetSaveV1 = normalizer := Option.some_inj.mp heqn
            exact normalizePlanetSaveV1_dates h

theorem tryReadSaveFromStorage_some {storage : Storage} {slot : ℕ} {ex : PlanetSave}
    (h : tryReadSaveFromStorage storage slot = some ex) :
    ∃ raw, parseSavePayload raw (some slot) = Except.ok ex := by
  unfold tryReadSaveFromStorage readSaveFromStorage at h
  cases hs : storage (getSlotKey slot) with
  | none =>
    rw [hs] at h
    exact absurd h (by simp)
  | some raw =>
    rw [hs] at h
    dsimp only at h
    cases hp : parseSavePayload raw (some slot) with
    | ok save =>
      rw [hp] at h
      obtain rfl : save = ex := Option.some_inj.mp h
      exact ⟨raw, hp⟩
    | error e =>
      rw [hp] at h
      exact absurd h (by simp)

/-- Concrete storage for the C7 counterexample: slot 0 holds a record whose
`createdAt` is one day after the epoch. -/
def mdC7 : PlanetSaveMetadata :=
  { slot := 0, label := "Alpha", createdAt := dateFormat 86400000,
    updatedAt := dateFormat 86400000 }

def storageC7 : Storage := fun key =>
  if key = getSlotKey 0 then
    some (StoredPayload.wellFormed (buildSerializedSavePayload createDefaultPlanetState mdC7))
  else none

/-- C7 as stated is false for `savePlanetStateToSlot`: saving over an
existing record with a save timestamp that precedes the record's `createdAt`
(here `options.timestamp`/clock = epoch against a stored `createdAt` one day
later) produces a record whose `updatedAt` precedes its `createdAt`. -/
theorem spec_C7_counterexample :
    ∃ (storageAfter : Storage) (rec : PlanetSave),
      savePlanetStateToSlot storageC7 0 0 createDefaultPlanetState none =
        Except.ok (storageAfter, rec) ∧
      dateParse rec.metadata.createdAt = some 86400000 ∧
      dateParse rec.metadata.updatedAt = some 0 ∧
      ¬(∀ ct ut, dateParse rec.metadata.createdAt = some ct →
          dateParse rec.metadata.updatedAt = some ut → ct ≤ ut) := by
  obtain ⟨md, hsave, hmdslot, hupd, hcre⟩ :=
    savePlanetStateToSlot_shape storageC7 0 0 createDefaultPlanetState none (by decide)
  obtain ⟨md', hparse, hslot', hcre'⟩ :=
    parseSavePayload_build_ok createDefaultPlanetState_valid mdC7 (by decide)
  have hcanon : ensureISODate (some (JValue.str mdC7.createdAt)) ISO_EPOCH =
      dateFormat 86400000 := by
    simp [mdC7, ensureISODate, jString?, dateParse_dateFormat]
  have htry : tryReadSaveFromStorage storageC7 0 =
      some
        { formatVersion := PLANET_SAVE_FORMAT_VERSION, metadata := md',
          planetStateVersion := createDefaultPlanetState.version,
          planetState := createDefaultPlanetState } := by
    unfold tryReadSaveFromStorage readSaveFromStorage
    rw [show (some 0 : Option ℕ) = some mdC7.slot from rfl]
    simp [storageC7, hparse]
  refine ⟨_, _, hsave, ?_, ?_, ?_⟩
  · rw [hcre, htry]
    simp only [Option.map_some', Option.getD_some]
    rw [hcre', hcanon, dateParse_dateFormat]
  · rw [hupd]
    simp only [Option.none_bind, Option.getD_none]
    rw [dateParse_dateFormat]
  · intro hall
    have h1 : md.createdAt = dateFormat 86400000 := by
      rw [hcre, htry]
      simp only [Option.map_some', Option.getD_some]
      rw [hcre', hcanon]
    have h2 : md.updatedAt = dateFormat 0 := by
      rw [hupd]
      simp only [Option.none_bind, Option.getD_none]
    have := hall 86400000 0 (by rw [h1, dateParse_dateFormat]) (by rw [h2, dateParse_dateFormat])
    omega

/-- C7 (amended): every record produced by `deserializePlanetSave` satisfies
`updatedAt ≥ createdAt` on parsed timestamps; a record produced by
`savePlanetStateToSlot` satisfies it provided the save timestamp does not
precede the existing record's `createdAt` (in particular whenever the slot
is empty or unreadable, where `createdAt = updatedAt = timestamp`). -/
theorem spec_C7_updatedAt_invariant :
    (∀ (payload : StoredPayload) (es : Option ℕ) (rec : PlanetSave),
      deserializePlanetSave payload es = Except.ok rec →
      ∃ ct ut, dateParse rec.metadata.createdAt = some ct ∧
        dateParse rec.metadata.updatedAt = some ut ∧ ct ≤ ut) ∧
    (∀ (storage : Storage) (now : ℤ) (slot : ℕ) (s : PlanetState)
        (opts : Option SavePlanetStateOptions) (storageAfter : Storage) (rec : PlanetSave),
      savePlanetStateToSlot storage now slot s opts = Except.ok (storageAfter, rec) →
      (∀ ex ct, tryReadSaveFromStorage storage slot = some ex →
        dateParse ex.metadata.createdAt = some ct →
        ct ≤ (opts.bind (fun o => o.timestamp)).getD now) →
      ∃ ct ut, dateParse rec.metadata.createdAt = some ct ∧
        dateParse rec.metadata.updatedAt = some ut ∧ ct ≤ ut) := by
  constructor
  · intro payload es rec h
    exact parseSavePayload_dates h
  · intro storage now slot s opts storageAfter rec hsave hhyp
    by_cases hr : SAVE_SLOT_COUNT ≤ slot
    · unfold savePlanetStateToSlot at hsave
      rw [if_pos hr] at hsave
      exact absurd hsave (by simp)
    · obtain ⟨md, hsave', hmdslot, hupd, hcre⟩ :=
        savePlanetStateToSlot_shape storage now slot s opts (not_le.mp hr)
      have hrec :
          rec =
            { formatVersion := PLANET_SAVE_FORMAT_VERSION, metadata := md,
              planetStateVersion := s.version, planetState := s } :=
        congrArg Prod.snd (Except.ok.inj (hsave.symm.trans hsave'))
      rw [hrec]
      cases htr : tryReadSaveFromStorage storage slot with
      | none =>
        rw [htr] at hcre
        simp only [Option.map_none', Option.getD_none] at hcre
        exact ⟨_, _, by rw [hcre, dateParse_dateFormat],
          by rw [hupd, dateParse_dateFormat], le_refl _⟩
      | some ex =>
        rw [htr] at hcre
        simp only [Option.map_some', Option.getD_some] at hcre
        obtain ⟨raw, hp⟩ := tryReadSaveFromStorage_some htr
        obtain ⟨ct, ut, hctp, _, _⟩ := parseSavePayload_dates hp
        refine ⟨ct, (opts.bind (fun o => o.timestamp)).getD now, ?_, ?_, ?_⟩
        · rw [hcre]
          exact hctp
        · rw [hupd, dateParse_dateFormat]
        · exact hhyp ex ct htr hctp

theorem spec_C7_updatedAt_invariant_witness :
    ∃ (storageAfter : Storage) (rec : PlanetSave),
      savePlanetStateToSlot (fun _ => none) 0 0 createDefaultPlanetState none =
        Except.ok (storageAfter, rec) ∧
      ∃ ct ut, dateParse rec.metadata.createdAt = some ct ∧
        dateParse rec.metadata.updatedAt = some ut ∧ ct ≤ ut := by
  obtain ⟨md, hsave, _, _, _⟩ :=
    savePlanetStateToSlot_shape (fun _ => none) 0 0 createDefaultPlanetState none (by decide)
  refine ⟨_, _, hsave, ?_⟩
  refine spec_C7_updatedAt_invariant.2 _ 0 0 _ none _ _ hsave ?_
  intro ex ct htr hct
  exact absurd htr (by simp [tryReadSaveFromStorage, readSaveFromStorage])

/-! ## Claim theorems: slot listing and most-recent selection (C6) -/

/-- The selection key the spec describes: the parsed `updatedAt` timestamp of
an available summary, with unparsable timestamps at the bottom. -/
def summaryUpdatedKey : PlanetSaveSlotSummary → WithBot ℤ
  | PlanetSaveSlotSummary.available _ _ md _ =>
    (match dateParse md.updatedAt with
      | some t => (t : WithBot ℤ)
      | none => ⊥)
  | _ => ⊥

/-- The spec's words, as a definition: filter `list()` to Available and take
the maximum by parsed `updatedAt` (`List.argmax` keeps the earliest element
on ties). -/
def findMostRecentValidSpec (storage : Storage) : Option PlanetSaveSlotSummary :=
  ((listPlanetSaveSlots storage).filter isPlanetSaveSlotAvailable).argmax summaryUpdatedKey

theorem mostRecentStep_not_available {acc : Option PlanetSaveSlotSummary}
    {b : PlanetSaveSlotSummary} (hb : isPlanetSaveSlotAvailable b = false) :
    mostRecentStep acc b = acc := by
  cases b with
  | available s l md v => simp [isPlanetSaveSlotAvailable] at hb
  | empty s l => rfl
  | corrupted s l r => rfl
  | incompatible s l r => rfl

theorem mostRecentStep_eq_argAux {acc : Option PlanetSaveSlotSummary}
    {b : PlanetSaveSlotSummary}
    (hacc : ∀ a, acc = some a → isPlanetSaveSlotAvailable a = true)
    (hb : isPlanetSaveSlotAvailable b = true) :
    mostRecentStep acc b =
      List.argAux (fun b c => summaryUpdatedKey c < summaryUpdatedKey b) acc b := by
  cases b with
  | empty s l => simp [isPlanetSaveSlotAvailable] at hb
  | corrupted s l r => simp [isPlanetSaveSlotAvailable] at hb
  | incompatible s l r => simp [isPlanetSaveSlotAvailable] at hb
  | available s l md v =>
    cases acc with
    | none => rfl
    | some a =>
      cases a with
      | empty s' l' => exact absurd (hacc _ rfl) (by simp [isPlanetSaveSlotAvailable])
      | corrupted s' l' r' => exact absurd (hacc _ rfl) (by simp [isPlanetSaveSlotAvailable])
      | incompatible s' l' r' => exact absurd (hacc _ rfl) (by simp [isPlanetSaveSlotAvailable])
      | available s' l' md' v' =>
        cases hcand : dateParse md.updatedAt with
        | none =>
          cases hlat : dateParse md'.updatedAt with
          | none => simp [mostRecentStep, List.argAux, summaryUpdatedKey, hcand, hlat]
          | some lt =>
            simp [mostRecentStep, List.argAux, summaryUpdatedKey, hcand, hlat, not_lt_bot]
        | some ct =>
          cases hlat : dateParse md'.updatedAt with
          | none => simp [mostRecentStep, List.argAux, summaryUpdatedKey, hcand, hlat]
          | some lt =>
            simp only [mostRecentStep, List.argAux, summaryUpdatedKey, hcand, hlat,
              WithBot.coe_lt_coe]

theorem foldl_mostRecentStep_eq (l : List PlanetSaveSlotSummary) :
    ∀ acc, (∀ a, acc = some a → isPlanetSaveSlotAvailable a = true) →
      l.foldl mostRecentStep acc =
        (l.filter isPlanetSaveSlotAvailable).foldl
          (List.argAux fun b c => summaryUpdatedKey c < summaryUpdatedKey b) acc := by
  induction l with
  | nil => intro acc _; rfl
  | cons b l ih =>
    intro acc hacc
    by_cases hb : isPlanetSaveSlotAvailable b = true
    · rw [List.foldl_cons, List.filter_cons_of_pos hb, List.foldl_cons,
        mostRecentStep_eq_argAux hacc hb]
      apply ih
      intro a ha
      unfold List.argAux at ha
      cases acc with
      | none =>
        obtain rfl : b = a := Option.some_inj.mp ha
        exact hb
      | some c =>
        simp only at ha
        split at ha
        · obtain rfl : b = a := Option.some_inj.mp ha
          exact hb
        · obtain rfl : c = a := Option.some_inj.mp ha
          exact hacc c rfl
    · rw [List.foldl_cons, List.filter_cons_of_neg (by simpa using hb),
        mostRecentStep_not_available (by simpa using hb)]
      exact ih acc hacc

theorem findMostRecentValidSaveSlot_eq_spec (storage : Storage) :
    findMostRecentValidSaveSlot storage = findMostRecentValidSpec storage := by
  unfold findMostRecentValidSaveSlot findMostRecentValidSpec List.argmax
  exact foldl_mostRecentStep_eq _ none (by simp)

/-- Concrete storage for the C6 scenario: slot 0 malformed text, slot 1 a
valid record updated at 2024-01-02T09:00:00Z (1704186000000 ms), slot 2
empty. -/
def mdC6 : PlanetSaveMetadata :=
  { slot := 1, label := "Alpha", createdAt := dateFormat 0,
    updatedAt := dateFormat 1704186000000 }

def storageC6 : Storage := fun key =>
  if key = getSlotKey 0 then some (StoredPayload.malformed "\x7bnot json")
  else if key = getSlotKey 1 then
    some (StoredPayload.wellFormed (buildSerializedSavePayload createDefaultPlanetState mdC6))
  else none

theorem summarizeSlot_storageC6_0 :
    summarizeSlot storageC6 0 =
      PlanetSaveSlotSummary.corrupted 0 (defaultSlotLabel 0) "Save payload is not valid JSON" := by
  simp [summarizeSlot, storageC6, parseSavePayload]

theorem summarizeSlot_storageC6_1 :
    summarizeSlot storageC6 1 =
      PlanetSaveSlotSummary.available 1 "Alpha" mdC6 PLANET_STATE_VERSION := by
  have hps : deserializePlanetState (planetStateToJson createDefaultPlanetState) =
      Except.ok createDefaultPlanetState := by
    have h := migratePlanetState_toJson createDefaultPlanetState_valid
    simpa [deserializePlanetState, planetStateToJson] using h
  have hsl1 : ensureSlotIndex (some (JValue.num 1)) = some 1 := by
    have := ensureSlotIndex_natCast (n := 1) (by decide)
    simpa using this
  have hkey : storageC6 (getSlotKey 1) =
      some (StoredPayload.wellFormed
        (buildSerializedSavePayload createDefaultPlanetState mdC6)) := by
    have hne : ¬(getSlotKey 1 = getSlotKey 0) := by decide
    simp [storageC6, hne]
  have hcre : ensureISODate (some (JValue.str (dateFormat 0))) ISO_EPOCH = dateFormat 0 := by
    simp [ensureISODate, jString?, dateParse_dateFormat]
  have hupd : ensureISODate (some (JValue.str (dateFormat 1704186000000))) (dateFormat 0) =
      dateFormat 1704186000000 := by
    simp [ensureISODate, jString?, dateParse_dateFormat]
  have hlbl : sanitizeLabel (some (JValue.str "Alpha")) (defaultSlotLabel 1) = "Alpha" := by
    decide
  have hdv : createDefaultPlanetState.version = 1 := rfl
  simp [summarizeSlot, hkey, parseSavePayload, buildSerializedSavePayload, metadataToJson,
    mdC6, jRecord?, jGet, List.lookup, planetSaveNormalizerFor, PLANET_SAVE_FORMAT_VERSION,
    ssEnsurePositiveInteger_one, normalizePlanetSaveV1, hsl1, hcre, hupd,
    dateParse_dateFormat, hlbl, hps, hdv, PLANET_STATE_VERSION]

theorem summarizeSlot_storageC6_2 :
    summarizeSlot storageC6 2 = PlanetSaveSlotSummary.empty 2 (defaultSlotLabel 2) := by
  have hne0 : ¬(getSlotKey 2 = getSlotKey 0) := by decide
  have hne1 : ¬(getSlotKey 2 = getSlotKey 1) := by decide
  simp [summarizeSlot, storageC6, hne0, hne1]

/-- C6: in the stored-slot scenario (slot 0 malformed, slot 1 a valid record,
slot 2 empty) `list()` classifies the slots `[Corrupted, Available, Empty]`
and `findMostRecentValid()` returns the slot-1 summary; in general the loop
agrees with the spec's selection — filter to Available, maximum by parsed
`updatedAt` with ties and unparsable timestamps favoring the earliest — and
returns `none` exactly when no Available summary exists. -/
theorem spec_C6_slot_listing :
    listPlanetSaveSlots storageC6 =
      [ PlanetSaveSlotSummary.corrupted 0 (defaultSlotLabel 0) "Save payload is not valid JSON",
        PlanetSaveSlotSummary.available 1 "Alpha" mdC6 PLANET_STATE_VERSION,
        PlanetSaveSlotSummary.empty 2 (defaultSlotLabel 2) ] ∧
    findMostRecentValidSaveSlot storageC6 =
      some (PlanetSaveSlotSummary.available 1 "Alpha" mdC6 PLANET_STATE_VERSION) ∧
    (∀ storage : Storage,
      findMostRecentValidSaveSlot storage = findMostRecentValidSpec storage) ∧
    (∀ storage : Storage,
      (listPlanetSaveSlots storage).filter isPlanetSaveSlotAvailable = [] →
      findMostRecentValidSaveSlot storage = none) := by
  have hlist : listPlanetSaveSlots storageC6 =
      [ PlanetSaveSlotSummary.corrupted 0 (defaultSlotLabel 0) "Save payload is not valid JSON",
        PlanetSaveSlotSummary.available 1 "Alpha" mdC6 PLANET_STATE_VERSION,
        PlanetSaveSlotSummary.empty 2 (defaultSlotLabel 2) ] := by
    have hr : List.range SAVE_SLOT_COUNT = [0, 1, 2] := rfl
    simp [listPlanetSaveSlots, hr, summarizeSlot_storageC6_0, summarizeSlot_storageC6_1,
      summarizeSlot_storageC6_2]
  refine ⟨hlist, ?_, findMostRecentValidSaveSlot_eq_spec, ?_⟩
  · unfold findMostRecentValidSaveSlot
    rw [hlist]
    simp [mostRecentStep]
  · intro storage hempty
    rw [findMostRecentValidSaveSlot_eq_spec, findMostRecentValidSpec, hempty]
    exact List.argmax_nil _

theorem spec_C6_slot_listing_witness :
    findMostRecentValidSaveSlot (fun _ => none) = none := by
  refine spec_C6_slot_listing.2.2.2 (fun _ => none) ?_
  rfl

/-! ## Claim theorems: noise engine (C8, C9) -/

theorem fyStep_length (perm : List ℕ) (state i : ℕ) :
    (fyStep perm state i).length = perm.length := by
  simp [fyStep]

theorem fyLoop_length : ∀ (i st : ℕ) (perm : List ℕ), (fyLoop i st perm).length = perm.length := by
  intro i
  induction i with
  | zero => intro st perm; rfl
  | succ i ih =>
    intro st perm
    rw [show fyLoop (i + 1) st perm =
        fyLoop i (lcgNext st) (fyStep perm (lcgNext st) (i + 1)) from rfl]
    rw [ih, fyStep_length]

theorem initPermutation_length (seed : ℕ) : (initPermutation seed).length = 256 := by
  unfold initPermutation
  rw [fyLoop_length]
  simp

theorem pAt_initNoise_dup (seed : ℕ) {i : ℕ} (hi : i < 256) :
    pAt (initNoise seed) (i + 256) = pAt (initNoise seed) i := by
  have hlen := initPermutation_length seed
  unfold initNoise pAt
  rw [List.getD_eq_getElem?_getD, List.getD_eq_getElem?_getD,
    List.getElem?_append_right (by omega), List.getElem?_append_left (by omega)]
  have hidx : i + 256 - (initPermutation seed).length = i := by
    rw [hlen]
    omega
  rw [hidx]

/-- C8: the noise generator is deterministic in the seed — `initNoise`
rebuilds the same 256-entry permutation table (duplicated into the 512-entry
`P`) for equal seeds, so every `fbmNoise` query agrees between the two runs;
distinct seeds (42 vs 43) produce different tables. -/
theorem spec_C8_noise_determinism :
    (∀ s₁ s₂ : ℕ, s₁ = s₂ →
      initNoise s₁ = initNoise s₂ ∧
      ∀ (x y z w : ℚ) (octaves : ℕ) (persistence lacunarity : ℚ),
        fbmNoise (initNoise s₁) x y z w octaves persistence lacunarity =
          fbmNoise (initNoise s₂) x y z w octaves persistence lacunarity) ∧
    (∀ seed : ℕ,
      initNoise seed = initPermutation seed ++ initPermutation seed ∧
      (initPermutation seed).length = 256 ∧ (initNoise seed).length = 512 ∧
      ∀ i < 256, pAt (initNoise seed) (i + 256) = pAt (initNoise seed) i) ∧
    initNoise 42 ≠ initNoise 43 := by
  refine ⟨?_, ?_, ?_⟩
  · intro s₁ s₂ h
    subst h
    exact ⟨rfl, fun _ _ _ _ _ _ _ => rfl⟩
  · intro seed
    refine ⟨rfl, initPermutation_length seed, ?_, fun i hi => pAt_initNoise_dup seed hi⟩
    unfold initNoise
    rw [List.length_append, initPermutation_length]
  · set_option maxRecDepth 100000 in decide

theorem spec_C8_noise_determinism_witness :
    initNoise 42 = initNoise 42 ∧
    pAt (initNoise 42) (0 + 256) = pAt (initNoise 42) 0 :=
  ⟨(spec_C8_noise_determinism.1 42 42 rfl).1,
    (spec_C8_noise_determinism.2.1 42).2.2.2 0 (by decide)⟩

theorem abs3_le {u v w : ℚ} (hu : |u| ≤ 1) (hv : |v| ≤ 1) (hw : |w| ≤ 1) :
    |u + v + w| ≤ 3 := by
  calc |u + v + w| ≤ |u + v| + |w| := abs_add _ _
    _ ≤ |u| + |v| + |w| := by linarith [abs_add u v]
    _ ≤ 3 := by linarith

theorem abs_grad_le {hash : ℕ} {x y z w : ℚ} (hx : |x| ≤ 1) (hy : |y| ≤ 1) (hz : |z| ≤ 1)
    (hw : |w| ≤ 1) : |grad hash x y z w| ≤ 3 := by
  simp only [grad]
  apply abs3_le <;>
    (split_ifs <;> (try simp only [abs_neg]) <;>
      first | exact hx | exact hy | exact hz | exact hw)

theorem fade_mem {t : ℚ} (h0 : 0 ≤ t) (h1 : t ≤ 1) : 0 ≤ fade t ∧ fade t ≤ 1 := by
  have hs : (0:ℚ) ≤ 1 - t := by linarith
  constructor
  · unfold fade
    nlinarith [mul_nonneg (mul_nonneg h0 h0) h0,
      mul_nonneg (mul_nonneg (mul_nonneg h0 h0) h0) (sq_nonneg (4 * t - 5))]
  · unfold fade
    nlinarith [mul_nonneg (mul_nonneg hs hs) hs,
      mul_nonneg (mul_nonneg (mul_nonneg hs hs) hs) (sq_nonneg (4 * t + 1))]

theorem abs_lerp_le {t a b c : ℚ} (h0 : 0 ≤ t) (h1 : t ≤ 1) (ha : |a| ≤ c) (hb : |b| ≤ c) :
    |lerp t a b| ≤ c := by
  have hc : 0 ≤ c := le_trans (abs_nonneg a) ha
  have heq : lerp t a b = (1 - t) * a + t * b := by unfold lerp; ring
  rw [heq]
  calc |(1 - t) * a + t * b| ≤ |(1 - t) * a| + |t * b| := abs_add _ _
    _ = (1 - t) * |a| + t * |b| := by
        rw [abs_mul, abs_mul, abs_of_nonneg (by linarith : (0:ℚ) ≤ 1 - t), abs_of_nonneg h0]
    _ ≤ (1 - t) * c + t * c :=
        add_le_add (mul_le_mul_of_nonneg_left ha (by linarith))
          (mul_le_mul_of_nonneg_left hb h0)
    _ = c := by ring

set_option maxHeartbeats 4000000 in
theorem abs_perlin4D_le_three (P : List ℕ) (x y z w : ℚ) : |perlin4D P x y z w| ≤ 3 := by
  have hxf0 : (0:ℚ) ≤ x - (⌊x⌋ : ℚ) := by linarith [Int.floor_le x]
  have hxf1 : x - (⌊x⌋ : ℚ) ≤ 1 := by linarith [Int.lt_floor_add_one x]
  have hyf0 : (0:ℚ) ≤ y - (⌊y⌋ : ℚ) := by linarith [Int.floor_le y]
  have hyf1 : y - (⌊y⌋ : ℚ) ≤ 1 := by linarith [Int.lt_floor_add_one y]
  have hzf0 : (0:ℚ) ≤ z - (⌊z⌋ : ℚ) := by linarith [Int.floor_le z]
  have hzf1 : z - (⌊z⌋ : ℚ) ≤ 1 := by linarith [Int.lt_floor_add_one z]
  have hwf0 : (0:ℚ) ≤ w - (⌊w⌋ : ℚ) := by linarith [Int.floor_le w]
  have hwf1 : w - (⌊w⌋ : ℚ) ≤ 1 := by linarith [Int.lt_floor_add_one w]
  have hax : |x - (⌊x⌋ : ℚ)| ≤ 1 := by rw [abs_of_nonneg hxf0]; exact hxf1
  have hax' : |x - (⌊x⌋ : ℚ) - 1| ≤ 1 := by rw [abs_of_nonpos (by linarith)]; linarith
  have hay : |y - (⌊y⌋ : ℚ)| ≤ 1 := by rw [abs_of_nonneg hyf0]; exact hyf1
  have hay' : |y - (⌊y⌋ : ℚ) - 1| ≤ 1 := by rw [abs_of_nonpos (by linarith)]; linarith
  have haz : |z - (⌊z⌋ : ℚ)| ≤ 1 := by rw [abs_of_nonneg hzf0]; exact hzf1
  have haz' : |z - (⌊z⌋ : ℚ) - 1| ≤ 1 := by rw [abs_of_nonpos (by linarith)]; linarith
  have haw : |w - (⌊w⌋ : ℚ)| ≤ 1 := by rw [abs_of_nonneg hwf0]; exact hwf1
  have haw' : |w - (⌊w⌋ : ℚ) - 1| ≤ 1 := by rw [abs_of_nonpos (by linarith)]; linarith
  have hfx := fade_mem hxf0 hxf1
  have hfy := fade_mem hyf0 hyf1
  have hfz := fade_mem hzf0 hzf1
  have hfw := fade_mem hwf0 hwf1
  simp only [perlin4D]
  apply abs_lerp_le hfx.1 hfx.2
  · apply abs_lerp_le hfy.1 hfy.2
    · apply abs_lerp_le hfz.1 hfz.2
      · apply abs_lerp_le hfw.1 hfw.2
        · exact abs_grad_le hax hay haz haw
        · exact abs_grad_le hax hay haz haw'
      · apply abs_lerp_le hfw.1 hfw.2
        · exact abs_grad_le hax hay haz' haw
        · exact abs_grad_le hax hay haz' haw'
    · apply abs_lerp_le hfz.1 hfz.2
      · apply abs_lerp_le hfw.1 hfw.2
        · exact abs_grad_le hax hay' haz haw
        · exact abs_grad_le hax hay' haz haw'
      · apply abs_lerp_le hfw.1 hfw.2
        · exact abs_grad_le hax hay' haz' haw
        · exact abs_grad_le hax hay' haz' haw'
  · apply abs_lerp_le hfy.1 hfy.2
    · apply abs_lerp_le hfz.1 hfz.2
      · apply abs_lerp_le hfw.1 hfw.2
        · exact abs_grad_le hax' hay haz haw
        · exact abs_grad_le hax' hay haz haw'
      · apply abs_lerp_le hfw.1 hfw.2
        · exact abs_grad_le hax' hay haz' haw
        · exact abs_grad_le hax' hay haz' haw'
    · apply abs_lerp_le hfz.1 hfz.2
      · apply abs_lerp_le hfw.1 hfw.2
        · exact abs_grad_le hax' hay' haz haw
        · exact abs_grad_le hax' hay' haz haw'
      · apply abs_lerp_le hfw.1 hfw.2
        · exact abs_grad_le hax' hay' haz' haw
        · exact abs_grad_le hax' hay' haz' haw'

theorem fbmLoop_bound (P : List ℕ) (x y z w persistence lacunarity B : ℚ)
    (hB : ∀ f : ℚ, |perlin4D P (x * f) (y * f) (z * f) (w * f)| ≤ B)
    (hp : 0 < persistence) :
    ∀ (n : ℕ) (amp freq value maxV : ℚ), 0 < amp → |value| ≤ B * maxV →
      |(fbmLoop P x y z w persistence lacunarity n amp freq value maxV).1| ≤
        B * (fbmLoop P x y z w persistence lacunarity n amp freq value maxV).2 ∧
      maxV ≤ (fbmLoop P x y z w persistence lacunarity n amp freq value maxV).2 ∧
      (1 ≤ n → maxV + amp ≤ (fbmLoop P x y z w persistence lacunarity n amp freq value maxV).2) := by
  intro n
  induction n with
  | zero =>
    intro amp freq value maxV hamp hval
    simp only [fbmLoop]
    exact ⟨hval, le_refl _, fun h => absurd h (by omega)⟩
  | succ n ih =>
    intro amp freq value maxV hamp hval
    simp only [fbmLoop]
    have hstep :
        |value + perlin4D P (x * freq) (y * freq) (z * freq) (w * freq) * amp| ≤
          B * (maxV + amp) := by
      have h1 : |perlin4D P (x * freq) (y * freq) (z * freq) (w * freq) * amp| ≤ B * amp := by
        rw [abs_mul, abs_of_pos hamp]
        exact mul_le_mul_of_nonneg_right (hB freq) (le_of_lt hamp)
      calc |value + perlin4D P (x * freq) (y * freq) (z * freq) (w * freq) * amp| ≤
          |value| + |perlin4D P (x * freq) (y * freq) (z * freq) (w * freq) * amp| := abs_add _ _
        _ ≤ B * maxV + B * amp := add_le_add hval h1
        _ = B * (maxV + amp) := by ring
    obtain ⟨h1, h2, _⟩ := ih (amp * persistence) (freq * lacunarity)
      (value + perlin4D P (x * freq) (y * freq) (z * freq) (w * freq) * amp) (maxV + amp)
      (mul_pos hamp hp) hstep
    exact ⟨h1, le_trans (by linarith) h2, fun _ => h2⟩

theorem abs_fbmNoise_le (P : List ℕ) (x y z w : ℚ) (octaves : ℕ)
    (persistence lacunarity B : ℚ) (hoct : 1 ≤ octaves) (hp : 0 < persistence)
    (hB : ∀ f : ℚ, |perlin4D P (x * f) (y * f) (z * f) (w * f)| ≤ B) :
    |fbmNoise P x y z w octaves persistence lacunarity| ≤ B := by
  obtain ⟨h1, _, h3⟩ :=
    fbmLoop_bound P x y z w persistence lacunarity B hB hp octaves 1 1 0 0 one_pos (by simp)
  have hm : (1 : ℚ) ≤ (fbmLoop P x y z w persistence lacunarity octaves 1 1 0 0).2 := by
    have := h3 hoct
    linarith
  have hpos : (0:ℚ) < (fbmLoop P x y z w persistence lacunarity octaves 1 1 0 0).2 := by
    linarith
  show |(fbmLoop P x y z w persistence lacunarity octaves 1 1 0 0).1 /
      (fbmLoop P x y z w persistence lacunarity octaves 1 1 0 0).2| ≤ B
  rw [abs_div, abs_of_pos hpos, div_le_iff₀ hpos]
  exact h1

set_option maxRecDepth 100000 in
/-- C9 counterexample: with seed 42, coordinates (1/2,1/2,1/2,1/2), 2 octaves,
persistence -9/10 and lacunarity 2, `fbmNoise` evaluates to -15/2 (octave 1
lands on integer coordinates, so its noise is 0 and `maxValue` is 1/10), which
is far outside [-1, 1] — refuting the claim that the normalization by the
accumulated amplitude keeps the result in range regardless of persistence. -/
theorem spec_C9_counterexample :
    fbmNoise (initNoise 42) (1/2) (1/2) (1/2) (1/2) 2 (-(9/10)) 2 = -(15/2) ∧
    ¬(-1 ≤ fbmNoise (initNoise 42) (1/2) (1/2) (1/2) (1/2) 2 (-(9/10)) 2 ∧
        fbmNoise (initNoise 42) (1/2) (1/2) (1/2) (1/2) 2 (-(9/10)) 2 ≤ 1) := by
  have heq : fbmNoise (initNoise 42) (1/2) (1/2) (1/2) (1/2) 2 (-(9/10)) 2 = -(15/2) :=
    of_decide_eq_true (by with_unfolding_all rfl)
  refine ⟨heq, ?_⟩
  rw [heq]
  rintro ⟨hc, _⟩
  exact absurd hc (of_decide_eq_true (by with_unfolding_all rfl))

/-- C9 (amended): for at least one octave and positive persistence the fbm
result is bounded — unconditionally by 3 in absolute value (each `grad` is a
signed sum of three coordinates of the unit cell, so `|perlin4D| ≤ 3`), and it
lies in [-1, 1] whenever the underlying per-octave noise values lie in
[-1, 1]; with non-positive persistence the bound fails (see the
counterexample). -/
theorem spec_C9_fbm_range (P : List ℕ) (x y z w : ℚ) (octaves : ℕ)
    (persistence lacunarity : ℚ) (hoct : 1 ≤ octaves) (hp : 0 < persistence) :
    |fbmNoise P x y z w octaves persistence lacunarity| ≤ 3 ∧
    ((∀ f : ℚ, |perlin4D P (x * f) (y * f) (z * f) (w * f)| ≤ 1) →
      -1 ≤ fbmNoise P x y z w octaves persistence lacunarity ∧
        fbmNoise P x y z w octaves persistence lacunarity ≤ 1) := by
  constructor
  · exact abs_fbmNoise_le P x y z w octaves persistence lacunarity 3 hoct hp
      (fun f => abs_perlin4D_le_three P (x * f) (y * f) (z * f) (w * f))
  · intro h
    exact abs_le.mp (abs_fbmNoise_le P x y z w octaves persistence lacunarity 1 hoct hp h)

theorem spec_C9_fbm_range_witness :
    1 ≤ 1 ∧ (0:ℚ) < 1 ∧ |fbmNoise [] 0 0 0 0 1 1 1| ≤ 3 :=
  ⟨le_refl 1, one_pos, (spec_C9_fbm_range [] 0 0 0 0 1 1 1 (le_refl 1) one_pos).1⟩
